import Mathlib

/-!
# Verification of the InstaScrape admission & ledger subsystem

Shallow embedding of the credit ledger (`credit-system.js`), the abuse
protection system (`abuse-protection.js`), the blacklist manager
(`blacklist-manager.js`) and the two HTTP scrape handlers (`index.js`),
together with proofs of the specification's claims about them.

JavaScript strings are embedded as Lean `String`s; the handful of string
operations the source uses (`includes`, `startsWith`, `trim`, `toLowerCase`,
`split`) are modelled by executable helpers over the character list so that
every predicate can be evaluated by `decide` on concrete inputs.
Timestamps (`Date.now()`, ISO date strings) are modelled as natural-number
millisecond counts; credit counters are modelled as integers because the
source performs unguarded subtraction on them.
-/

/-- JavaScript `s.trim()`: strip whitespace from both ends (ASCII model). -/
def jsTrim (s : String) : String :=
  ⟨(s.data.dropWhile Char.isWhitespace).reverse.dropWhile Char.isWhitespace |>.reverse⟩

/-- JavaScript `s.toLowerCase()` (ASCII model). -/
def jsLower (s : String) : String :=
  ⟨s.data.map Char.toLower⟩

/-- JavaScript `s.startsWith(pre)`. -/
def jsStartsWith (s pre : String) : Bool :=
  pre.data.isPrefixOf s.data

/-- JavaScript `s.includes(sub)`: substring containment. -/
def jsIncludes (s sub : String) : Bool :=
  s.data.tails.any (fun t => sub.data.isPrefixOf t)

/-- Split a character list on a separator, JavaScript `String.split` style:
`split "a:b" ':' = ["a","b"]`, `split "" ':' = [""]`. -/
def splitCharList (sep : Char) (cs : List Char) : List (List Char) :=
  List.foldr
    (fun c acc =>
      if c = sep then [] :: acc
      else
        match acc with
        | [] => [[c]]
        | g :: gs => (c :: g) :: gs)
    [[]] cs

/-- JavaScript `s.split(sep)` for a one-character separator. -/
def jsSplit (sep : Char) (s : String) : List String :=
  (splitCharList sep s.data).map (fun g => ⟨g⟩)

/-- JavaScript `Array.join(sep)` at character-list level. -/
def joinSepChar (sep : Char) : List (List Char) → List Char
  | [] => []
  | [g] => g
  | g :: g' :: gs => g ++ sep :: joinSepChar sep (g' :: gs)

/-- JavaScript `parts.join('.')`. -/
def joinDot (parts : List String) : String :=
  ⟨joinSepChar '.' (parts.map String.data)⟩

/-- Association-list model of a JavaScript `Map`: lookup by key. -/
def mapLookup {α : Type} : List (String × α) → String → Option α
  | [], _ => none
  | p :: m, k => if p.1 == k then some p.2 else mapLookup m k

/-- Association-list model of `Map.set`: replace in place, or append. -/
def mapSet {α : Type} : List (String × α) → String → α → List (String × α)
  | [], k, v => [(k, v)]
  | p :: m, k, v => if p.1 == k then (k, v) :: m else p :: mapSet m k v

/-- Association-list model of `Map.delete`. -/
def mapErase {α : Type} (m : List (String × α)) (k : String) :
    List (String × α) :=
  m.filter (fun p => !(p.1 == k))

/-- Model of a JavaScript `Set`: membership. -/
def setHas (l : List String) (x : String) : Bool :=
  l.any (fun y => y == x)

/-- Model of `Set.add`: no duplicate is inserted. -/
def setAdd (l : List String) (x : String) : List String :=
  if setHas l x then l else l ++ [x]

/-- Model of `Set.delete`. -/
def setDel (l : List String) (x : String) : List String :=
  l.filter (fun y => !(y == x))

/-! ## Credit ledger (`credit-system.js`, class `CreditManager`) -/

/-- One entry of `CreditManager.tokens` (the fields the ledger reads). -/
structure Token where
  tier : String
  credits : Int
  expiresAt : Nat
  usedCredits : Int
  deriving Repr, DecidableEq

/-- The `CreditManager.tokens` map. -/
abbrev TokenMap := List (String × Token)

/-- `CreditManager.getCreditsForTier`: `creditAmounts[tier] || 1`, on the
tier strings that are not inherited `Object.prototype` property names (the
spec's tier domain; the full lookup including the prototype chain is
`getCreditsForTierJS`). -/
def getCreditsForTier (tier : String) : Int :=
  if tier == "basic" then 10
  else if tier == "premium" then 20
  else if tier == "custom" then 50
  else 1

/-- `this.credits[requestedTier] || 1`: per-scrape cost of a tier, on the
tier strings that are not inherited `Object.prototype` property names (the
full lookup including the prototype chain is `creditCostJS`). -/
def creditCost (tier : String) : Int :=
  if tier == "basic" then 1
  else if tier == "premium" then 5
  else if tier == "custom" then 10
  else 1

/-- A JavaScript value as produced by reading a property of the two tier
tables: an own numeric entry, a truthy member inherited from
`Object.prototype` (a function, or the `__proto__` object), or
`undefined`. -/
inductive JSValue where
  | num (n : Int)
  | protoMember (name : String)
  | jsUndefined
  deriving Repr, DecidableEq

/-- The property names every plain object literal inherits from
`Object.prototype`; reading any of them yields a truthy function (or, for
`__proto__`, the prototype object). -/
def objectProtoKeys : List String :=
  ["constructor", "hasOwnProperty", "isPrototypeOf", "propertyIsEnumerable",
   "toLocaleString", "toString", "valueOf", "__proto__",
   "__defineGetter__", "__defineSetter__", "__lookupGetter__",
   "__lookupSetter__"]

/-- The `creditAmounts` object literal of `CreditManager.getCreditsForTier`. -/
def creditAmounts : List (String × Int) :=
  [("basic", 10), ("premium", 20), ("custom", 50)]

/-- The `this.credits` object literal of the `CreditManager` constructor. -/
def creditsTable : List (String × Int) :=
  [("basic", 1), ("premium", 5), ("custom", 10)]

/-- JavaScript property read `own[key]` on a plain object literal: an own
entry wins; otherwise the lookup walks the prototype chain and returns the
inherited `Object.prototype` member for its property names; otherwise
`undefined`. -/
def jsObjGet (own : List (String × Int)) (key : String) : JSValue :=
  match mapLookup own key with
  | some n => .num n
  | none => if objectProtoKeys.contains key then .protoMember key else .jsUndefined

/-- JavaScript `x || 1`: the left operand unless it is falsy (`undefined`
or `0` here); inherited functions and objects are truthy. -/
def jsOrOne : JSValue → JSValue
  | .num n => if n = 0 then .num 1 else .num n
  | .protoMember f => .protoMember f
  | .jsUndefined => .num 1

/-- `CreditManager.getCreditsForTier` with the full JavaScript lookup
semantics: `creditAmounts[tier] || 1` including the prototype chain. -/
def getCreditsForTierJS (tier : String) : JSValue :=
  jsOrOne (jsObjGet creditAmounts tier)

/-- `this.credits[requestedTier] || 1` with the full JavaScript lookup
semantics, including the prototype chain. -/
def creditCostJS (tier : String) : JSValue :=
  jsOrOne (jsObjGet creditsTable tier)

/-- `CreditManager.generateAccessToken`, parametrised by the random token id
and the current time. -/
def generateAccessToken (m : TokenMap) (tokenId : String) (now : Nat)
    (tier : String) : TokenMap :=
  mapSet m tokenId
    { tier := tier
      credits := getCreditsForTier tier
      expiresAt := now + 30 * 24 * 60 * 60 * 1000
      usedCredits := 0 }

/-- Result of `CreditManager.validateAndConsumeCredit`. -/
inductive ConsumeResult where
  | invalidToken
  | expired
  | insufficient (available needed : Int)
  | ok (remainingCredits : Int) (tier : String)
  deriving Repr, DecidableEq

/-- `ConsumeResult.valid` — the JS result's `valid` flag. -/
def ConsumeResult.valid : ConsumeResult → Bool
  | .ok _ _ => true
  | _ => false

/-- `CreditManager.validateAndConsumeCredit`: returns the updated token map
together with the result object. -/
def validateAndConsumeCredit (m : TokenMap) (now : Nat)
    (accessToken requestedTier : String) : TokenMap × ConsumeResult :=
  match mapLookup m accessToken with
  | none => (m, .invalidToken)
  | some token =>
    if now > token.expiresAt then
      (mapErase m accessToken, .expired)
    else
      let creditsNeeded := creditCost requestedTier
      let availableCredits := token.credits - token.usedCredits
      if availableCredits < creditsNeeded then
        (m, .insufficient availableCredits creditsNeeded)
      else
        let token' := { token with usedCredits := token.usedCredits + creditsNeeded }
        (mapSet m accessToken token', .ok (token'.credits - token'.usedCredits) token.tier)

/-- The refund statement inlined in `app.post('/scrape')` (`index.js`):
`token.usedCredits -= creditManager.credits[tier] || 1` — a plain
subtraction with no floor, applied only when the token still exists. -/
def gatewayRefund (m : TokenMap) (accessToken tier : String) : TokenMap :=
  match mapLookup m accessToken with
  | none => m
  | some token =>
      mapSet m accessToken
        { token with usedCredits := token.usedCredits - creditCost tier }

/-- The spec's wording of `refund`: "decrements `usedCredits` by the tier's
cost, floored at zero". Stated from the spec for comparison with
`gatewayRefund`. -/
def specFlooredRefund (m : TokenMap) (accessToken tier : String) : TokenMap :=
  match mapLookup m accessToken with
  | none => m
  | some token =>
      mapSet m accessToken
        { token with usedCredits := max (token.usedCredits - creditCost tier) 0 }


/-! ## Abuse protection (`abuse-protection.js`, class `AbuseProtectionSystem`) -/

/-- `this.limits.windowMs`: one hour in milliseconds. -/
def windowMs : Nat := 60 * 60 * 1000

/-- `this.limits.maxRequestsPerIP`. -/
def maxRequestsPerIP : Nat := 100

/-- `this.limits.maxRequestsPerDomain`. -/
def maxRequestsPerDomain : Nat := 60

/-- `this.limits.maxFailedAttempts`. -/
def maxFailedAttempts : Nat := 10

/-- `this.limits.maxBlacklistAttempts`. -/
def maxBlacklistAttempts : Nat := 3

/-- One entry of `this.ipTracker`. -/
structure IPData where
  requests : List Nat
  failures : List Nat
  deriving Repr, DecidableEq

/-- One abuse report as filed by `reportAbuse` (the fields the claims need). -/
structure AbuseReport where
  ip : String
  reason : String
  severity : String
  deriving Repr, DecidableEq

/-- The mutable state of `AbuseProtectionSystem`. -/
structure AbuseState where
  ipTracker : List (String × IPData)
  domainTracker : List (String × List Nat)
  suspiciousIPs : List String
  bannedIPs : List String
  reports : List AbuseReport
  deriving Repr, DecidableEq

/-- The empty state built by the constructor. -/
def AbuseState.init : AbuseState := ⟨[], [], [], [], []⟩

/-- `AbuseProtectionSystem.calculateSeverity`. -/
def calculateSeverity (reason : String) : String :=
  let reasonLower := jsLower reason
  if ["blacklist", "ban", "illegal", "attack", "flood"].any
      (fun k => jsIncludes reasonLower k) then "HIGH"
  else if ["rate limit", "suspicious", "failure"].any
      (fun k => jsIncludes reasonLower k) then "MEDIUM"
  else "LOW"

/-- The spec's wording of severity classification: "presence of
high-severity terms (blacklist, ban, attack, flood) → HIGH;
rate-limit/suspicious/failure terms → MEDIUM; else LOW". Stated from the
spec for comparison with `calculateSeverity`. -/
def specSeverity (reason : String) : String :=
  let reasonLower := jsLower reason
  if ["blacklist", "ban", "attack", "flood"].any
      (fun k => jsIncludes reasonLower k) then "HIGH"
  else if ["rate limit", "suspicious", "failure"].any
      (fun k => jsIncludes reasonLower k) then "MEDIUM"
  else "LOW"

/-- `reports.slice(-1000)` guarded by `reports.length > 1000`: keep the most
recent 1000 entries (for shorter lists this is the identity). -/
def capReports (rs : List AbuseReport) : List AbuseReport :=
  rs.drop (rs.length - 1000)

/-- `AbuseProtectionSystem.reportAbuse` (its effect on in-memory state; the
JSON file is the model's `reports` field). -/
def reportAbuse (s : AbuseState) (ip reason : String) : AbuseState :=
  { s with reports :=
      capReports (s.reports ++ [⟨ip, reason, calculateSeverity reason⟩]) }

/-- `AbuseProtectionSystem.flagSuspiciousIP`. -/
def flagSuspiciousIP (s : AbuseState) (ip reason : String) : AbuseState :=
  reportAbuse { s with suspiciousIPs := setAdd s.suspiciousIPs ip } ip reason

/-- Window filter `time => now - time < windowMs` used by the tracker. -/
def pruneWindow (now : Nat) (l : List Nat) : List Nat :=
  l.filter (fun t => now - t < windowMs)

/-- Result of `AbuseProtectionSystem.checkRateLimit` (which denial branch
fired, or allowed with the remaining quota). -/
inductive RateResult where
  | allowed (remaining : Int)
  | deniedIPRate
  | deniedFailures
  | deniedDomainRate
  deriving Repr, DecidableEq

/-- `RateResult.isAllowed` — the JS result's `allowed` flag. -/
def RateResult.isAllowed : RateResult → Bool
  | .allowed _ => true
  | _ => false

/-- The `ip_` key prefixing of the tracker. -/
def ipKey (ip : String) : String := "ip_" ++ ip

/-- The `domain_` key prefixing of the tracker. -/
def domainKey (d : String) : String := "domain_" ++ d

/-- `AbuseProtectionSystem.checkRateLimit`: ensures a tracker entry exists,
prunes both windows in place, then tests the IP request cap (flagging the IP
as suspicious on violation), the failure cap (banning on violation) and,
when a domain is given, the domain cap. Returns the updated state with the
result. -/
def checkRateLimit (s : AbuseState) (now : Nat) (ip : String)
    (domain : Option String) : AbuseState × RateResult :=
  let d0 := (mapLookup s.ipTracker (ipKey ip)).getD ⟨[], []⟩
  let ipData : IPData :=
    ⟨pruneWindow now d0.requests, pruneWindow now d0.failures⟩
  let s1 := { s with ipTracker := mapSet s.ipTracker (ipKey ip) ipData }
  if ipData.requests.length ≥ maxRequestsPerIP then
    (flagSuspiciousIP s1 ip "Rate limit exceeded", .deniedIPRate)
  else if ipData.failures.length ≥ maxFailedAttempts then
    ({ s1 with bannedIPs := setAdd s1.bannedIPs ip }, .deniedFailures)
  else
    match domain with
    | none => (s1, .allowed (maxRequestsPerIP - ipData.requests.length))
    | some dom =>
      let dd0 := (mapLookup s1.domainTracker (domainKey dom)).getD []
      let dd := pruneWindow now dd0
      let s2 := { s1 with domainTracker := mapSet s1.domainTracker (domainKey dom) dd }
      if dd.length ≥ maxRequestsPerDomain then
        (s2, .deniedDomainRate)
      else
        (s2, .allowed (maxRequestsPerIP - ipData.requests.length))

/-- `AbuseProtectionSystem.recordRequest`. -/
def recordRequest (s : AbuseState) (now : Nat) (ip : String)
    (domain : Option String) : AbuseState :=
  let d0 := (mapLookup s.ipTracker (ipKey ip)).getD ⟨[], []⟩
  let d1 := { d0 with requests := d0.requests ++ [now] }
  let s1 := { s with ipTracker := mapSet s.ipTracker (ipKey ip) d1 }
  match domain with
  | none => s1
  | some dom =>
    let dd0 := (mapLookup s1.domainTracker (domainKey dom)).getD []
    let dt := mapSet s1.domainTracker (domainKey dom) (dd0 ++ [now])
    { s1 with domainTracker := dt }

/-- `AbuseProtectionSystem.recordFailure`: appends the failure timestamp and,
when the reason indicates a blacklist violation and at least
`maxBlacklistAttempts` failures fall inside the window, bans the IP and files
an abuse report. -/
def recordFailure (s : AbuseState) (now : Nat) (ip reason : String) : AbuseState :=
  let d0 := (mapLookup s.ipTracker (ipKey ip)).getD ⟨[], []⟩
  let d1 := { d0 with failures := d0.failures ++ [now] }
  let s1 := { s with ipTracker := mapSet s.ipTracker (ipKey ip) d1 }
  if jsIncludes reason "blacklist" || jsIncludes reason "Blacklisted" then
    if (pruneWindow now d1.failures).length ≥ maxBlacklistAttempts then
      reportAbuse { s1 with bannedIPs := setAdd s1.bannedIPs ip }
        ip "Multiple blacklist bypass attempts"
    else s1
  else s1

/-- Result of `AbuseProtectionSystem.checkIPStatus`. -/
inductive IPStatus where
  | banned
  | suspicious
  | clean
  deriving Repr, DecidableEq

/-- `AbuseProtectionSystem.checkIPStatus`. -/
def checkIPStatus (s : AbuseState) (ip : String) : IPStatus :=
  if setHas s.bannedIPs ip then .banned
  else if setHas s.suspiciousIPs ip then .suspicious
  else .clean

/-- `AbuseProtectionSystem.cleanOldEntries`. -/
def cleanOldEntries (s : AbuseState) (now : Nat) : AbuseState :=
  let cutoff := now - windowMs
  { s with
    ipTracker :=
      (s.ipTracker.map (fun p =>
        (p.1, IPData.mk (p.2.requests.filter (fun t => t > cutoff))
          (p.2.failures.filter (fun t => t > cutoff))))).filter
        (fun p => !(p.2.requests.isEmpty && p.2.failures.isEmpty))
    domainTracker :=
      (s.domainTracker.map (fun p =>
        (p.1, p.2.filter (fun t => t > cutoff)))).filter
        (fun p => !p.2.isEmpty) }

/-- `AbuseProtectionSystem.banIP` (the administrative ban). -/
def banIP (s : AbuseState) (ip reason : String) : AbuseState :=
  reportAbuse { s with bannedIPs := setAdd s.bannedIPs ip } ip
    ("Manual ban: " ++ reason)

/-- `AbuseProtectionSystem.unbanIP` (the administrative unban). -/
def unbanIP (s : AbuseState) (ip : String) : AbuseState :=
  { s with bannedIPs := setDel s.bannedIPs ip,
           suspiciousIPs := setDel s.suspiciousIPs ip }

/-! ## Blacklist manager (`blacklist-manager.js`, class `BlacklistManager`)

URL parsing is delegated to the runtime in the source (`new URL(url)`); the
model works at the level of the parsed, lowercased hostname and pathname and
carries an explicit flag for whether the raw string parses as a URL. -/

/-- `this.staticBlacklist`. -/
def staticBlacklist : List String :=
  ["facebook.com", "www.facebook.com", "m.facebook.com",
   "instagram.com", "www.instagram.com",
   "twitter.com", "www.twitter.com", "x.com",
   "linkedin.com", "www.linkedin.com",
   "tiktok.com", "www.tiktok.com",
   "snapchat.com", "www.snapchat.com",
   "amazon.com", "www.amazon.com", "amazon.co.uk",
   "ebay.com", "www.ebay.com",
   "etsy.com", "www.etsy.com",
   "shopify.com", "www.shopify.com",
   "google.com", "www.google.com",
   "bing.com", "www.bing.com",
   "yahoo.com", "www.yahoo.com",
   "youtube.com", "www.youtube.com",
   "netflix.com", "www.netflix.com",
   "spotify.com", "www.spotify.com",
   "paypal.com", "www.paypal.com",
   "stripe.com", "www.stripe.com",
   "gov.uk", "gov.rs", "gov.us",
   "cloudflare.com", "recaptcha.com"]

/-- The parent-domain loop of `BlacklistManager.isBlacklisted`:
`for (let i = 0; i < parts.length - 1; i++)` over `parts.slice(i).join('.')`,
returning the first blacklisted parent domain. -/
def parentDomainHit (domains : List String) (parts : List String) : Option String :=
  (List.range (parts.length - 1)).findSome? (fun i =>
    let parentDomain := joinDot (parts.drop i)
    if setHas domains parentDomain then some parentDomain else none)

/-- `BlacklistManager.isBlacklisted`, at hostname level: `true` with a reason
when blocked. The source's `catch` branch (unparseable URL) is handled by the
caller `validateUrl`'s own parse check in the model. -/
def isBlacklisted (domains : List String) (domain : String) : Bool × String :=
  if setHas domains domain then
    (true, "Domain in blacklist")
  else
    match parentDomainHit domains (jsSplit '.' domain) with
    | some _ => (true, "Parent domain in blacklist")
    | none => (false, "Domain allowed")

/-- The spec's wording of the parent-suffix rule: "every parent-domain suffix
(e.g. `sub.a.b.com` checked against `a.b.com`, `b.com`)" — the proper label
suffixes that keep at least two labels. Stated from the spec for comparison
with `parentDomainHit`. -/
def specParentDomains (domain : String) : List String :=
  let parts := jsSplit '.' domain
  (parts.tails.filter (fun t => 2 ≤ t.length && t.length < parts.length)).map
    (fun t => joinDot t)

/-- `line.split(':')[1].trim()` — the token after the first colon. -/
def afterColon (line : String) : String :=
  jsTrim (((jsSplit ':' line).get? 1).getD "")

/-- The user-agent applicability test of `BlacklistManager.parseRobotsTxt`:
`agent === '*' || agent.includes('bot') || agent.includes('spider')`. -/
def agentApplicable (agent : String) : Bool :=
  agent == "*" || jsIncludes agent "bot" || jsIncludes agent "spider"

/-- Whether one (already trimmed and lowercased) `disallow:` line blocks the
path: `disallowPath === '/' || (disallowPath && path.startsWith(disallowPath))`. -/
def disallowBlocks (path line : String) : Bool :=
  let disallowPath := afterColon line
  disallowPath == "/" || (!(disallowPath == "") && jsStartsWith path disallowPath)

/-- The scanning loop of `BlacklistManager.parseRobotsTxt`: walks the lines,
updating the current user-agent applicability flag, and stops at the first
blocking `disallow:` line whose current flag is set. -/
def robotsScan (path : String) : List String → Bool → Bool
  | [], _ => false
  | line :: rest, cur =>
    let cur' := if jsStartsWith line "user-agent:" then agentApplicable (afterColon line) else cur
    if cur' && jsStartsWith line "disallow:" && disallowBlocks path line then true
    else robotsScan path rest cur'

/-- `content.split('\n').map(line => line.trim().toLowerCase())`. -/
def robotsLines (content : String) : List String :=
  (jsSplit '\n' content).map (fun l => jsLower (jsTrim l))

/-- `BlacklistManager.parseRobotsTxt`: `(allowed, reason)`. -/
def parseRobotsTxt (content path : String) : Bool × String :=
  let blocked := robotsScan path (robotsLines content) false
  (!blocked, if blocked then "Blocked by robots.txt" else "Allowed by robots.txt")

/-- The spec's wording of the robots rule: only "the **first** matching
applicable block's `Disallow` rules apply (no merging across multiple
blocks)". Stated from the spec for comparison with `parseRobotsTxt`:
the disallow lines of the first applicable `user-agent:` block. -/
def firstApplicableBlock : List String → Option (List String)
  | [] => none
  | line :: rest =>
    if jsStartsWith line "user-agent:" && agentApplicable (afterColon line) then
      some (rest.takeWhile (fun l => !jsStartsWith l "user-agent:"))
    else firstApplicableBlock rest

/-- First-matching-block-only robots semantics, per the spec's words. -/
def specRobotsBlockedFirstOnly (content path : String) : Bool :=
  match firstApplicableBlock (robotsLines content) with
  | none => false
  | some blockLines =>
      blockLines.any (fun l => jsStartsWith l "disallow:" && disallowBlocks path l)

/-- Outcome of the robots.txt fetch, an external network effect the model
takes as a parameter: no file / network error or timeout / a 200 body. -/
inductive RobotsFetch where
  | noFile
  | netError
  | body (content : String)
  deriving Repr, DecidableEq

/-- The decision part of `BlacklistManager.checkRobotsTxt` once the fetch
outcome is known (the 24h cache only affects which fetch is observed). -/
def checkRobotsDecision (fetch : RobotsFetch) (path : String) : Bool × String :=
  match fetch with
  | .noFile => (true, "No robots.txt found")
  | .netError => (true, "robots.txt check failed")
  | .body content => parseRobotsTxt content path

/-- `BlacklistManager.validateUrl`: `(valid, reason)`. `urlOk` is whether
`new URL(url)` succeeds; `host`/`path` are the parsed lowercased hostname and
the raw pathname. -/
def validateUrl (domains : List String) (urlOk : Bool) (host path : String)
    (fetch : RobotsFetch) : Bool × String :=
  if !urlOk then (false, "Invalid URL format")
  else
    let blacklistCheck := isBlacklisted domains host
    if blacklistCheck.1 then
      (false, "Blacklisted: " ++ blacklistCheck.2)
    else
      let robotsCheck := checkRobotsDecision fetch path
      if !robotsCheck.1 then (false, robotsCheck.2)
      else (true, "URL validated")

/-! ## The HTTP handlers (`index.js`) -/

/-- `RESTRICTED_DOMAINS` of `index.js`. -/
def RESTRICTED_DOMAINS : List String :=
  ["facebook.com", "instagram.com", "twitter.com", "linkedin.com",
   "google.com", "amazon.com", "youtube.com", "tiktok.com",
   "pinterest.com", "reddit.com"]

/-- `isValidUrl` of `index.js`, at hostname level: the lowercased hostname
must not contain or equal a restricted domain. -/
def isValidUrl (domain : String) : Bool :=
  !(RESTRICTED_DOMAINS.any (fun r => jsIncludes domain r || domain == r))

/-- Outcome of `enhancedScraper.scrapeEnhanced`, an external effect the
model takes as a parameter: success, a reported failure, or a thrown error. -/
inductive ExtractOutcome where
  | ok
  | fail
  | crash
  deriving Repr, DecidableEq

/-- The observable result of one `/scrape` request. -/
structure ScrapeResponse where
  status : Nat
  creditRefunded : Bool
  extractionAttempted : Bool
  deriving Repr, DecidableEq

/-- `app.post('/scrape')` of `index.js`: missing-field check, restricted
domain check, credit consume, extraction, refund on extraction failure or
thrown error. `host` is the request URL's parsed hostname (empty string for
a missing `url` field, matching JS falsiness). The handler never consults
the abuse-protection state. -/
def scrapeHandler (m : TokenMap) (now : Nat) (host accessToken tier : String)
    (outcome : ExtractOutcome) : TokenMap × ScrapeResponse :=
  if host == "" || accessToken == "" then
    (m, ⟨400, false, false⟩)
  else if !isValidUrl host then
    (m, ⟨400, false, false⟩)
  else
    match validateAndConsumeCredit m now accessToken tier with
    | (m', .ok _ _) =>
      match outcome with
      | .ok => (m', ⟨200, false, true⟩)
      | .fail => (gatewayRefund m' accessToken tier, ⟨500, true, true⟩)
      | .crash => (gatewayRefund m' accessToken tier, ⟨500, true, true⟩)
    | (m', _) => (m', ⟨402, false, false⟩)

/-- The observable result of one `/test-scrape` request. -/
structure TestScrapeResponse where
  status : Nat
  extractionAttempted : Bool
  deriving Repr, DecidableEq

/-- `app.post('/test-scrape')` of `index.js`: ban check, rate-limit check,
URL-present check, blacklist + robots validation, then extraction; failures
are recorded against the caller. `urlGiven`/`urlOk` model presence and
parseability of the `url` field; `host`/`path` its parsed pieces. The
handler never touches the credit ledger. -/
def testScrapeHandler (s : AbuseState) (now : Nat) (ip : String)
    (urlGiven urlOk : Bool) (host path : String) (domains : List String)
    (fetch : RobotsFetch) (outcome : ExtractOutcome) :
    AbuseState × TestScrapeResponse :=
  if checkIPStatus s ip = .banned then
    (s, ⟨403, false⟩)
  else
    let domain : Option String :=
      if urlGiven then some (if urlOk then host else "invalid-url") else none
    match checkRateLimit s now ip domain with
    | (s1, r) =>
      if !r.isAllowed then
        (recordFailure s1 now ip "Rate limit exceeded", ⟨429, false⟩)
      else if !urlGiven then
        (recordFailure s1 now ip "Missing URL", ⟨400, false⟩)
      else
        let validation := validateUrl domains urlOk host path fetch
        if !validation.1 then
          (recordFailure s1 now ip validation.2, ⟨400, false⟩)
        else
          let s2 := recordRequest s1 now ip domain
          match outcome with
          | .ok => (s2, ⟨200, true⟩)
          | .fail => (recordFailure s2 now ip "Scraping failed", ⟨500, true⟩)
          | .crash => (recordFailure s2 now ip "Server error", ⟨500, true⟩)

/-- The whole server's mutable state (the module-level singletons of
`index.js`: `creditManager` and `abuseProtection`). -/
structure ServerState where
  credits : TokenMap
  abuse : AbuseState
  deriving Repr, DecidableEq

/-- The `/scrape` endpoint at server level: the handler reads and writes the
credit ledger only; the caller's identity `ip` and the whole abuse state are
never consulted. -/
def scrapeEndpoint (st : ServerState) (now : Nat) (ip host accessToken tier : String)
    (outcome : ExtractOutcome) : ServerState × ScrapeResponse :=
  let r := scrapeHandler st.credits now host accessToken tier outcome
  let _ := ip
  (⟨r.1, st.abuse⟩, r.2)

/-- The `/test-scrape` endpoint at server level: the handler reads and writes
the abuse state only; the credit ledger is never consulted. -/
def testScrapeEndpoint (st : ServerState) (now : Nat) (ip : String)
    (urlGiven urlOk : Bool) (host path : String) (domains : List String)
    (fetch : RobotsFetch) (outcome : ExtractOutcome) :
    ServerState × TestScrapeResponse :=
  let r := testScrapeHandler st.abuse now ip urlGiven urlOk host path domains fetch outcome
  (⟨st.credits, r.1⟩, r.2)

/-! ## Operation alphabets for the invariant claims -/

/-- The sequential operations of the credit ledger named by the spec's
invariant: issuing a token, a bare consume, and a whole `/scrape` request
(consume followed by the gateway's refund when extraction fails). -/
inductive CreditOp where
  | issue (tokenId : String) (now : Nat) (tier : String)
  | consume (accessToken tier : String) (now : Nat)
  | scrape (host accessToken tier : String) (now : Nat) (outcome : ExtractOutcome)

/-- Apply one credit-ledger operation. -/
def applyCreditOp (m : TokenMap) : CreditOp → TokenMap
  | .issue tokenId now tier => generateAccessToken m tokenId now tier
  | .consume accessToken tier now => (validateAndConsumeCredit m now accessToken tier).1
  | .scrape host accessToken tier now outcome =>
      (scrapeHandler m now host accessToken tier outcome).1

/-- The per-token bound `0 ≤ usedCredits ≤ totalCredits`, as a decidable
check on one ledger entry. -/
def tokenOk (t : Token) : Bool :=
  decide (0 ≤ t.usedCredits) && decide (t.usedCredits ≤ t.credits)

/-- The spec's credit invariant over the whole ledger. -/
def creditInv (m : TokenMap) : Bool :=
  m.all (fun p => tokenOk p.2)

/-- `n` successive consume calls against one token (test-scenario helper). -/
def consumeIter (now : Nat) (accessToken tier : String) : Nat → TokenMap → TokenMap
  | 0, m => m
  | n + 1, m =>
      (validateAndConsumeCredit (consumeIter now accessToken tier n m) now accessToken tier).1

/-- The operations that mutate `AbuseProtectionSystem` state. -/
inductive AbuseOp where
  | checkRL (now : Nat) (ip : String) (domain : Option String)
  | recordReq (now : Nat) (ip : String) (domain : Option String)
  | recordFail (now : Nat) (ip reason : String)
  | flagSusp (ip reason : String)
  | report (ip reason : String)
  | clean (now : Nat)
  | ban (ip reason : String)
  | unban (ip : String)
  deriving DecidableEq

/-- Apply one abuse-protection operation. -/
def applyAbuseOp (s : AbuseState) : AbuseOp → AbuseState
  | .checkRL now ip domain => (checkRateLimit s now ip domain).1
  | .recordReq now ip domain => recordRequest s now ip domain
  | .recordFail now ip reason => recordFailure s now ip reason
  | .flagSusp ip reason => flagSuspiciousIP s ip reason
  | .report ip reason => reportAbuse s ip reason
  | .clean now => cleanOldEntries s now
  | .ban ip reason => banIP s ip reason
  | .unban ip => unbanIP s ip

/-- The user-agent applicability flag the robots scanner carries after
processing a list of lines, starting from `cur`. -/
def uaFlagAfter (lines : List String) (cur : Bool) : Bool :=
  lines.foldl
    (fun c l => if jsStartsWith l "user-agent:" then agentApplicable (afterColon l) else c)
    cur

/-! ## Helper lemmas on the container models -/

theorem mapLookup_mapSet_self {α : Type} (m : List (String × α)) (k : String) (v : α) :
    mapLookup (mapSet m k v) k = some v := by
  induction m with
  | nil => simp [mapSet, mapLookup]
  | cons p m ih =>
    by_cases h : (p.1 == k) = true
    · simp [mapSet, h, mapLookup]
    · simp [mapSet, h, mapLookup, ih]

theorem mapSet_mapSet {α : Type} (m : List (String × α)) (k : String) (v w : α) :
    mapSet (mapSet m k v) k w = mapSet m k w := by
  induction m with
  | nil => simp [mapSet]
  | cons p m ih =>
    by_cases h : (p.1 == k) = true
    · simp [mapSet, h]
    · simp [mapSet, h, ih]

theorem mapLookup_mapErase_self {α : Type} (m : List (String × α)) (k : String) :
    mapLookup (mapErase m k) k = none := by
  induction m with
  | nil => simp [mapErase, mapLookup]
  | cons p m ih =>
    by_cases hk : (p.1 == k) = true
    · simpa [mapErase, List.filter_cons, hk] using ih
    · simpa [mapErase, List.filter_cons, hk, mapLookup] using ih

theorem mapLookup_mapErase_ne {α : Type} (m : List (String × α)) (k i : String)
    (h : i ≠ k) : mapLookup (mapErase m k) i = mapLookup m i := by
  induction m with
  | nil => simp [mapErase]
  | cons p m ih =>
    by_cases hk : (p.1 == k) = true
    · have hpi : (p.1 == i) = false := by
        refine beq_eq_false_iff_ne.mpr ?_
        rw [beq_iff_eq.mp hk]
        exact fun he => h he.symm
      simpa [mapErase, List.filter_cons, hk, mapLookup, hpi] using ih
    · by_cases hpi : (p.1 == i) = true
      · simp [mapErase, List.filter_cons, hk, mapLookup, hpi]
      · simpa [mapErase, List.filter_cons, hk, mapLookup, hpi] using ih

theorem mapLookup_of_mapErase {α : Type} (m : List (String × α)) (k i : String) (v : α)
    (h : mapLookup (mapErase m k) i = some v) : mapLookup m i = some v := by
  by_cases hik : i = k
  · rw [hik, mapLookup_mapErase_self] at h
    exact absurd h (by simp)
  · rwa [mapLookup_mapErase_ne m k i hik] at h

theorem all_mapSet {α : Type} (f : α → Bool) (m : List (String × α)) (k : String) (v : α)
    (hm : m.all (fun p => f p.2) = true) (hv : f v = true) :
    (mapSet m k v).all (fun p => f p.2) = true := by
  induction m with
  | nil => simp [mapSet, hv]
  | cons p m ih =>
    simp only [List.all_cons, Bool.and_eq_true] at hm
    by_cases h : (p.1 == k) = true
    · simp [mapSet, h, hv, hm.2]
    · simp [mapSet, h, hm.1, ih hm.2]

theorem all_mapErase {α : Type} (f : α → Bool) (m : List (String × α)) (k : String)
    (hm : m.all (fun p => f p.2) = true) :
    (mapErase m k).all (fun p => f p.2) = true := by
  simp only [List.all_eq_true] at hm ⊢
  intro x hx
  exact hm x (List.mem_of_mem_filter hx)

theorem mapLookup_all {α : Type} (f : α → Bool) (m : List (String × α)) (k : String) (v : α)
    (hm : m.all (fun p => f p.2) = true) (hl : mapLookup m k = some v) : f v = true := by
  induction m with
  | nil => simp [mapLookup] at hl
  | cons p m ih =>
    simp only [List.all_cons, Bool.and_eq_true] at hm
    by_cases h : (p.1 == k) = true
    · simp only [mapLookup, h, if_true, Option.some.injEq] at hl
      exact hl ▸ hm.1
    · simp only [mapLookup, h] at hl
      exact ih hm.2 hl

theorem setHas_setAdd_self (l : List String) (x : String) :
    setHas (setAdd l x) x = true := by
  by_cases h : setHas l x = true
  · simp [setAdd, h]
  · simp only [setAdd, h, if_neg, Bool.not_eq_true] at *
    simp [setHas, List.any_append, h]

theorem setHas_setAdd_of (l : List String) (x y : String)
    (h : setHas l y = true) : setHas (setAdd l x) y = true := by
  by_cases hx : setHas l x = true
  · simpa [setAdd, hx] using h
  · simp only [setAdd, hx, if_neg, Bool.not_eq_true] at *
    simp [setHas, List.any_append] at *
    simp [h]

theorem setHas_setDel_of (l : List String) (x y : String) (hxy : y ≠ x)
    (h : setHas l y = true) : setHas (setDel l x) y = true := by
  simp only [setHas, List.any_eq_true, beq_iff_eq] at h
  obtain ⟨z, hz, rfl⟩ := h
  simp only [setHas, List.any_eq_true, beq_iff_eq]
  refine ⟨z, ?_, rfl⟩
  simp only [setDel, List.mem_filter, hz, true_and]
  simpa using hxy

/-! ## Credit-ledger lemmas -/

theorem creditCost_pos (tier : String) : 1 ≤ creditCost tier := by
  unfold creditCost
  split
  · decide
  split
  · decide
  split
  · decide
  · decide

theorem getCreditsForTier_nonneg (tier : String) : 0 ≤ getCreditsForTier tier := by
  unfold getCreditsForTier
  split
  · decide
  split
  · decide
  split
  · decide
  · decide

theorem consume_invalid_eq (m : TokenMap) (now : Nat) (tok tier : String)
    (h : mapLookup m tok = none) :
    validateAndConsumeCredit m now tok tier = (m, ConsumeResult.invalidToken) := by
  unfold validateAndConsumeCredit
  rw [h]

theorem consume_expired_eq (m : TokenMap) (now : Nat) (tok tier : String) (t : Token)
    (hl : mapLookup m tok = some t) (hexp : now > t.expiresAt) :
    validateAndConsumeCredit m now tok tier = (mapErase m tok, ConsumeResult.expired) := by
  unfold validateAndConsumeCredit
  rw [hl]
  simp [hexp]

theorem consume_insufficient_eq (m : TokenMap) (now : Nat) (tok tier : String) (t : Token)
    (hl : mapLookup m tok = some t) (hexp : ¬ now > t.expiresAt)
    (hin : t.credits - t.usedCredits < creditCost tier) :
    validateAndConsumeCredit m now tok tier =
      (m, ConsumeResult.insufficient (t.credits - t.usedCredits) (creditCost tier)) := by
  unfold validateAndConsumeCredit
  rw [hl]
  simp [hexp, hin]

theorem consume_success_eq (m : TokenMap) (now : Nat) (tok tier : String) (t : Token)
    (hl : mapLookup m tok = some t) (hexp : ¬ now > t.expiresAt)
    (hin : ¬ t.credits - t.usedCredits < creditCost tier) :
    validateAndConsumeCredit m now tok tier =
      (mapSet m tok { t with usedCredits := t.usedCredits + creditCost tier },
       ConsumeResult.ok (t.credits - (t.usedCredits + creditCost tier)) t.tier) := by
  unfold validateAndConsumeCredit
  rw [hl]
  simp [hexp, hin]

theorem consume_ok_shape (m : TokenMap) (now : Nat) (tok tier : String)
    (m' : TokenMap) (rem : Int) (tr : String)
    (h : validateAndConsumeCredit m now tok tier = (m', ConsumeResult.ok rem tr)) :
    ∃ t : Token, mapLookup m tok = some t ∧ ¬ now > t.expiresAt ∧
      ¬ t.credits - t.usedCredits < creditCost tier ∧
      m' = mapSet m tok { t with usedCredits := t.usedCredits + creditCost tier } ∧
      rem = t.credits - (t.usedCredits + creditCost tier) ∧ tr = t.tier := by
  cases hl : mapLookup m tok with
  | none =>
    rw [consume_invalid_eq m now tok tier hl] at h
    simp at h
  | some t =>
    by_cases hexp : now > t.expiresAt
    · rw [consume_expired_eq m now tok tier t hl hexp] at h
      simp at h
    · by_cases hin : t.credits - t.usedCredits < creditCost tier
      · rw [consume_insufficient_eq m now tok tier t hl hexp hin] at h
        simp at h
      · rw [consume_success_eq m now tok tier t hl hexp hin] at h
        simp only [Prod.mk.injEq, ConsumeResult.ok.injEq] at h
        exact ⟨t, rfl, hexp, hin, h.1.symm, h.2.1.symm, h.2.2.symm⟩

theorem gatewayRefund_mapSet (m : TokenMap) (tok tier : String) (t : Token) :
    gatewayRefund (mapSet m tok t) tok tier =
      mapSet m tok { t with usedCredits := t.usedCredits - creditCost tier } := by
  unfold gatewayRefund
  rw [mapLookup_mapSet_self]
  simp [mapSet_mapSet]

theorem specFlooredRefund_mapSet (m : TokenMap) (tok tier : String) (t : Token) :
    specFlooredRefund (mapSet m tok t) tok tier =
      mapSet m tok { t with usedCredits := max (t.usedCredits - creditCost tier) 0 } := by
  unfold specFlooredRefund
  rw [mapLookup_mapSet_self]
  simp [mapSet_mapSet]

theorem creditInv_generate (m : TokenMap) (tokenId : String) (now : Nat) (tier : String)
    (h : creditInv m = true) : creditInv (generateAccessToken m tokenId now tier) = true := by
  unfold generateAccessToken creditInv
  apply all_mapSet _ _ _ _ h
  simp [tokenOk, getCreditsForTier_nonneg]

theorem creditInv_consume (m : TokenMap) (now : Nat) (tok tier : String)
    (h : creditInv m = true) :
    creditInv (validateAndConsumeCredit m now tok tier).1 = true := by
  cases hl : mapLookup m tok with
  | none => rw [consume_invalid_eq m now tok tier hl]; exact h
  | some t =>
    by_cases hexp : now > t.expiresAt
    · rw [consume_expired_eq m now tok tier t hl hexp]
      exact all_mapErase _ m tok h
    · by_cases hin : t.credits - t.usedCredits < creditCost tier
      · rw [consume_insufficient_eq m now tok tier t hl hexp hin]
        exact h
      · rw [consume_success_eq m now tok tier t hl hexp hin]
        apply all_mapSet _ _ _ _ h
        have ht := mapLookup_all _ m tok t h hl
        simp only [tokenOk, Bool.and_eq_true, decide_eq_true_eq] at ht ⊢
        have hc := creditCost_pos tier
        omega

theorem creditInv_scrapeHandler (m : TokenMap) (now : Nat) (host tok tier : String)
    (outcome : ExtractOutcome) (h : creditInv m = true) :
    creditInv (scrapeHandler m now host tok tier outcome).1 = true := by
  unfold scrapeHandler
  split
  · exact h
  split
  · exact h
  rcases hvc : validateAndConsumeCredit m now tok tier with ⟨m', r⟩
  cases r with
  | ok rem tr =>
    obtain ⟨t, hl, hexp, hin, hm', _, _⟩ := consume_ok_shape m now tok tier m' rem tr hvc
    subst hm'
    have ht := mapLookup_all _ m tok t h hl
    simp only [tokenOk, Bool.and_eq_true, decide_eq_true_eq] at ht
    cases outcome with
    | ok =>
      simp only
      apply all_mapSet _ _ _ _ h
      simp only [tokenOk, Bool.and_eq_true, decide_eq_true_eq]
      have hc := creditCost_pos tier
      omega
    | fail =>
      simp only [gatewayRefund_mapSet]
      apply all_mapSet _ _ _ _ h
      simp only [tokenOk, Bool.and_eq_true, decide_eq_true_eq]
      omega
    | crash =>
      simp only [gatewayRefund_mapSet]
      apply all_mapSet _ _ _ _ h
      simp only [tokenOk, Bool.and_eq_true, decide_eq_true_eq]
      omega
  | invalidToken =>
    have hinv := creditInv_consume m now tok tier h
    rw [hvc] at hinv
    exact hinv
  | expired =>
    have hinv := creditInv_consume m now tok tier h
    rw [hvc] at hinv
    exact hinv
  | insufficient a b =>
    have hinv := creditInv_consume m now tok tier h
    rw [hvc] at hinv
    exact hinv

theorem creditInv_applyCreditOp (m : TokenMap) (op : CreditOp)
    (h : creditInv m = true) : creditInv (applyCreditOp m op) = true := by
  cases op with
  | issue tokenId now tier => exact creditInv_generate m tokenId now tier h
  | consume tok tier now => exact creditInv_consume m now tok tier h
  | scrape host tok tier now outcome => exact creditInv_scrapeHandler m now host tok tier outcome h

/-! ## Claim C1 — credit bounds invariant -/

/-- C1: for every access token, at every quiescent point,
`0 ≤ usedCredits ≤ totalCredits`: every sequential interleaving of
`generateAccessToken`, `validateAndConsumeCredit` and whole `/scrape`
requests (consume followed by the gateway's refund-on-failure) preserves
the bound for every entry of the ledger. -/
theorem c1_credit_bounds_invariant (m : TokenMap) (ops : List CreditOp)
    (h : creditInv m = true) : creditInv (ops.foldl applyCreditOp m) = true := by
  induction ops generalizing m with
  | nil => exact h
  | cons op ops ih => exact ih (applyCreditOp m op) (creditInv_applyCreditOp m op h)

/-- Witness for C1: a concrete run from the empty ledger — issue a basic
token, run a failing scrape (consume + refund), then a premium consume. -/
theorem c1_credit_bounds_invariant_witness :
    creditInv ([] : TokenMap) = true ∧
    creditInv
      (([CreditOp.issue "tok" 0 "basic",
         CreditOp.scrape "example.org" "tok" "basic" 5 ExtractOutcome.fail,
         CreditOp.consume "tok" "premium" 5].foldl applyCreditOp [])) = true :=
  ⟨by decide, c1_credit_bounds_invariant []
    [CreditOp.issue "tok" 0 "basic",
     CreditOp.scrape "example.org" "tok" "basic" 5 ExtractOutcome.fail,
     CreditOp.consume "tok" "premium" 5] (by decide)⟩

/-! ## Claim C2 — refund on failed extraction -/

/-- C2: when extraction fails after a successful consume, the gateway's
refund restores the token to exactly its pre-consume state (same
`usedCredits`), the final ledger agrees with the spec's floored refund
applied to the post-consume ledger (so flooring at zero never engages on
this path and the refund happens exactly once), and the response reports
`creditRefunded`. -/
theorem c2_refund_restores_balance (m : TokenMap) (now : Nat)
    (host tok tier : String) (outcome : ExtractOutcome) (t : Token)
    (hhost : ¬ host = "") (htok : ¬ tok = "") (hurl : isValidUrl host = true)
    (hl : mapLookup m tok = some t) (hused : 0 ≤ t.usedCredits)
    (hvalid : ((validateAndConsumeCredit m now tok tier).2).valid = true)
    (hfail : outcome ≠ ExtractOutcome.ok) :
    mapLookup (scrapeHandler m now host tok tier outcome).1 tok = some t ∧
    (scrapeHandler m now host tok tier outcome).1 =
      specFlooredRefund (validateAndConsumeCredit m now tok tier).1 tok tier ∧
    ((scrapeHandler m now host tok tier outcome).2).creditRefunded = true := by
  rcases hvc : validateAndConsumeCredit m now tok tier with ⟨m', r⟩
  rw [hvc] at hvalid
  cases r with
  | invalidToken => simp [ConsumeResult.valid] at hvalid
  | expired => simp [ConsumeResult.valid] at hvalid
  | insufficient a b => simp [ConsumeResult.valid] at hvalid
  | ok rem tr =>
    obtain ⟨t', hl', hexp, hin, hm', _, _⟩ := consume_ok_shape m now tok tier m' rem tr hvc
    rw [hl] at hl'
    cases hl'
    have hb1 : (host == "") = false := beq_eq_false_iff_ne.mpr hhost
    have hb2 : (tok == "") = false := beq_eq_false_iff_ne.mpr htok
    have hsh : scrapeHandler m now host tok tier outcome =
        (gatewayRefund m' tok tier, ⟨500, true, true⟩) := by
      unfold scrapeHandler
      rw [hvc]
      cases outcome with
      | ok => exact absurd rfl hfail
      | fail => simp [hb1, hb2, hurl]
      | crash => simp [hb1, hb2, hurl]
    subst hm'
    rw [hsh]
    have hfloor : max (t.usedCredits + creditCost tier - creditCost tier) 0 =
        t.usedCredits + creditCost tier - creditCost tier := by
      have := creditCost_pos tier
      omega
    have hback : ({ t with usedCredits := t.usedCredits + creditCost tier - creditCost tier } : Token) = t := by
      cases t
      simp
    refine ⟨?_, ?_, rfl⟩
    · rw [gatewayRefund_mapSet]
      rw [mapLookup_mapSet_self]
      rw [hback]
    · rw [gatewayRefund_mapSet, specFlooredRefund_mapSet]
      simp only [hfloor]

/-- Witness for C2: a fresh basic token, one failing basic scrape. -/
theorem c2_refund_restores_balance_witness :
    mapLookup
      (scrapeHandler (generateAccessToken [] "tok" 0 "basic") 5 "example.org" "tok" "basic"
        ExtractOutcome.fail).1 "tok" =
      some ⟨"basic", 10, 2592000000, 0⟩ ∧
    ((scrapeHandler (generateAccessToken [] "tok" 0 "basic") 5 "example.org" "tok" "basic"
        ExtractOutcome.fail).2).creditRefunded = true := by
  have h := c2_refund_restores_balance (generateAccessToken [] "tok" 0 "basic") 5
    "example.org" "tok" "basic" ExtractOutcome.fail ⟨"basic", 10, 2592000000, 0⟩
    (by decide) (by decide) (by decide) (by decide) (by decide) (by decide) (by decide)
  exact ⟨h.1, h.2.2⟩

/-! ## Claim C3 — consume error taxonomy and the basic-tier end-to-end run -/

/-- C3: `validateAndConsumeCredit` yields `invalidToken` for an unknown
token, `expired` for a token past `expiresAt` while evicting it,
`insufficient` (with the available and needed amounts) when the tier's cost
exceeds the remaining balance, and on success increments `usedCredits` by
the tier's cost; and for a freshly issued basic token, ten basic consumes
succeed while the eleventh returns insufficient credits with remaining 0. -/
theorem c3_consume_cases :
    (∀ (m : TokenMap) (now : Nat) (tok tier : String),
        mapLookup m tok = none →
        validateAndConsumeCredit m now tok tier = (m, ConsumeResult.invalidToken)) ∧
    (∀ (m : TokenMap) (now : Nat) (tok tier : String) (t : Token),
        mapLookup m tok = some t → now > t.expiresAt →
        validateAndConsumeCredit m now tok tier = (mapErase m tok, ConsumeResult.expired)) ∧
    (∀ (m : TokenMap) (now : Nat) (tok tier : String) (t : Token),
        mapLookup m tok = some t → ¬ now > t.expiresAt →
        t.credits - t.usedCredits < creditCost tier →
        validateAndConsumeCredit m now tok tier =
          (m, ConsumeResult.insufficient (t.credits - t.usedCredits) (creditCost tier))) ∧
    (∀ (m : TokenMap) (now : Nat) (tok tier : String) (t : Token),
        mapLookup m tok = some t → ¬ now > t.expiresAt →
        ¬ t.credits - t.usedCredits < creditCost tier →
        validateAndConsumeCredit m now tok tier =
          (mapSet m tok { t with usedCredits := t.usedCredits + creditCost tier },
           ConsumeResult.ok (t.credits - (t.usedCredits + creditCost tier)) t.tier)) ∧
    (∀ i, i < 10 →
        ((validateAndConsumeCredit
            (consumeIter 5 "tok" "basic" i (generateAccessToken [] "tok" 0 "basic"))
            5 "tok" "basic").2).valid = true) ∧
    (validateAndConsumeCredit
        (consumeIter 5 "tok" "basic" 10 (generateAccessToken [] "tok" 0 "basic"))
        5 "tok" "basic").2 = ConsumeResult.insufficient 0 1 := by
  refine ⟨consume_invalid_eq, consume_expired_eq, consume_insufficient_eq,
    consume_success_eq, ?_, by decide⟩
  decide

/-- Witness for C3: the unknown-token case on the empty ledger, and the
eleventh consume on a fresh basic token. -/
theorem c3_consume_cases_witness :
    validateAndConsumeCredit [] 0 "t" "basic" = ([], ConsumeResult.invalidToken) ∧
    (validateAndConsumeCredit
        (consumeIter 5 "tok" "basic" 10 (generateAccessToken [] "tok" 0 "basic"))
        5 "tok" "basic").2 = ConsumeResult.insufficient 0 1 :=
  ⟨c3_consume_cases.1 [] 0 "t" "basic" rfl, c3_consume_cases.2.2.2.2.2⟩

/-! ## Claim C10 — unknown tiers and the `|| 1` fallback (corrected) -/

/-- C10 counterexample: the tier string "constructor" lies outside
{basic, premium, custom} and is not an own key of either tier table, yet
the JavaScript lookup finds the truthy inherited
`Object.prototype.constructor` function, so the `|| 1` fallback never fires:
neither issuance nor consume uses 1 credit for this tier. -/
theorem c10_unknown_tier_counterexample :
    "constructor" ≠ "basic" ∧ "constructor" ≠ "premium" ∧
    "constructor" ≠ "custom" ∧
    mapLookup creditAmounts "constructor" = none ∧
    getCreditsForTierJS "constructor" = JSValue.protoMember "constructor" ∧
    creditCostJS "constructor" = JSValue.protoMember "constructor" ∧
    getCreditsForTierJS "constructor" ≠ JSValue.num 1 ∧
    creditCostJS "constructor" ≠ JSValue.num 1 := by
  refine ⟨by decide, by decide, by decide, by decide, by decide, by decide,
    by decide, by decide⟩

/-- C10 amended: for every tier string outside {basic, premium, custom}
that is not an inherited `Object.prototype` property name, the credit
system does not reject the tier — the lookup falls through to 1, issuance
grants exactly 1 credit and each consume with that tier charges exactly
1 credit; for the `Object.prototype` property names the lookup instead
returns the truthy inherited member, so the fallback never fires. -/
theorem c10_unknown_tier_fallback_amended (tier : String)
    (h1 : tier ≠ "basic") (h2 : tier ≠ "premium") (h3 : tier ≠ "custom")
    (h4 : objectProtoKeys.contains tier = false) :
    getCreditsForTierJS tier = JSValue.num 1 ∧
    creditCostJS tier = JSValue.num 1 ∧
    getCreditsForTier tier = 1 ∧ creditCost tier = 1 ∧
    (∀ (m : TokenMap) (tokenId : String) (now : Nat),
        mapLookup (generateAccessToken m tokenId now tier) tokenId =
          some ⟨tier, 1, now + 30 * 24 * 60 * 60 * 1000, 0⟩) ∧
    (∀ (m : TokenMap) (now : Nat) (tok : String) (t : Token),
        mapLookup m tok = some t → ¬ now > t.expiresAt →
        ¬ t.credits - t.usedCredits < 1 →
        (validateAndConsumeCredit m now tok tier).1 =
          mapSet m tok { t with usedCredits := t.usedCredits + 1 }) ∧
    (∀ p ∈ objectProtoKeys,
        getCreditsForTierJS p = JSValue.protoMember p ∧
        creditCostJS p = JSValue.protoMember p) := by
  have hb1 : (tier == "basic") = false := beq_eq_false_iff_ne.mpr h1
  have hb2 : (tier == "premium") = false := beq_eq_false_iff_ne.mpr h2
  have hb3 : (tier == "custom") = false := beq_eq_false_iff_ne.mpr h3
  have hb1' : ("basic" == tier) = false := beq_eq_false_iff_ne.mpr (Ne.symm h1)
  have hb2' : ("premium" == tier) = false := beq_eq_false_iff_ne.mpr (Ne.symm h2)
  have hb3' : ("custom" == tier) = false := beq_eq_false_iff_ne.mpr (Ne.symm h3)
  have hnone1 : mapLookup creditAmounts tier = none := by
    simp [creditAmounts, mapLookup, hb1', hb2', hb3']
  have hnone2 : mapLookup creditsTable tier = none := by
    simp [creditsTable, mapLookup, hb1', hb2', hb3']
  have hg : getCreditsForTier tier = 1 := by
    simp [getCreditsForTier, hb1, hb2, hb3]
  have hc : creditCost tier = 1 := by
    simp [creditCost, hb1, hb2, hb3]
  have h4' : ¬ tier ∈ objectProtoKeys := by simpa using h4
  refine ⟨?_, ?_, hg, hc, ?_, ?_, ?_⟩
  · simp [getCreditsForTierJS, jsObjGet, jsOrOne, hnone1, h4']
  · simp [creditCostJS, jsObjGet, jsOrOne, hnone2, h4']
  · intro m tokenId now
    unfold generateAccessToken
    rw [mapLookup_mapSet_self, hg]
  · intro m now tok t hl hexp hin
    rw [consume_success_eq m now tok tier t hl hexp (by rwa [hc])]
    rw [hc]
  · decide

/-- Witness for C10's amended theorem at the unknown tier "gold", plus the
prototype-key behavior at "constructor". -/
theorem c10_unknown_tier_fallback_amended_witness :
    getCreditsForTierJS "gold" = JSValue.num 1 ∧
    creditCostJS "gold" = JSValue.num 1 ∧
    getCreditsForTier "gold" = 1 ∧
    getCreditsForTierJS "constructor" = JSValue.protoMember "constructor" := by
  have h := c10_unknown_tier_fallback_amended "gold" (by decide) (by decide)
    (by decide) (by decide)
  exact ⟨h.1, h.2.1, h.2.2.1, (h.2.2.2.2.2.2 "constructor" (by decide)).1⟩

/-! ## Abuse-protection lemmas -/

theorem capReports_getLast (rs : List AbuseReport) (x : AbuseReport) :
    (capReports (rs ++ [x])).getLast? = some x := by
  unfold capReports
  have hle : (rs ++ [x]).length - 1000 ≤ rs.length := by
    simp only [List.length_append, List.length_singleton]
    omega
  rw [List.drop_append_of_le_length hle]
  exact List.getLast?_concat _

theorem checkRateLimit_ipTracker (s : AbuseState) (now : Nat) (ip : String)
    (d : Option String) :
    ((checkRateLimit s now ip d).1).ipTracker =
      mapSet s.ipTracker (ipKey ip)
        ⟨pruneWindow now ((mapLookup s.ipTracker (ipKey ip)).getD ⟨[], []⟩).requests,
         pruneWindow now ((mapLookup s.ipTracker (ipKey ip)).getD ⟨[], []⟩).failures⟩ := by
  unfold checkRateLimit
  dsimp only
  split
  · simp [flagSuspiciousIP, reportAbuse]
  split
  · rfl
  cases d with
  | none => rfl
  | some dom =>
    dsimp only
    split
    · rfl
    · rfl

theorem checkRateLimit_banned_cases (s : AbuseState) (now : Nat) (ip : String)
    (d : Option String) :
    ((checkRateLimit s now ip d).1).bannedIPs = s.bannedIPs ∨
    ((checkRateLimit s now ip d).1).bannedIPs = setAdd s.bannedIPs ip := by
  unfold checkRateLimit
  dsimp only
  split
  · left
    simp [flagSuspiciousIP, reportAbuse]
  split
  · right
    rfl
  cases d with
  | none => left; rfl
  | some dom =>
    dsimp only
    split
    · left; rfl
    · left; rfl

theorem checkRateLimit_suspicious_cases (s : AbuseState) (now : Nat) (ip : String)
    (d : Option String) :
    ((checkRateLimit s now ip d).1).suspiciousIPs = s.suspiciousIPs ∨
    ((checkRateLimit s now ip d).1).suspiciousIPs = setAdd s.suspiciousIPs ip := by
  unfold checkRateLimit
  dsimp only
  split
  · right
    simp [flagSuspiciousIP, reportAbuse]
  split
  · left
    rfl
  cases d with
  | none => left; rfl
  | some dom =>
    dsimp only
    split
    · left; rfl
    · left; rfl

/-! ## Claim C9 — severity classification (corrected) -/

/-- C9 counterexample: the reason "illegal" contains none of the claim's
high-severity terms (blacklist, ban, attack, flood) and none of the medium
terms, so the claim predicts LOW (`specSeverity`), but the code classifies
it HIGH — its high-severity keyword list also contains "illegal". -/
theorem c9_severity_counterexample :
    specSeverity "illegal" = "LOW" ∧
    jsIncludes (jsLower "illegal") "blacklist" = false ∧
    jsIncludes (jsLower "illegal") "ban" = false ∧
    jsIncludes (jsLower "illegal") "attack" = false ∧
    jsIncludes (jsLower "illegal") "flood" = false ∧
    jsIncludes (jsLower "illegal") "rate limit" = false ∧
    jsIncludes (jsLower "illegal") "suspicious" = false ∧
    jsIncludes (jsLower "illegal") "failure" = false ∧
    calculateSeverity "illegal" = "HIGH" := by
  refine ⟨by decide, by decide, by decide, by decide, by decide, by decide,
    by decide, by decide, by decide⟩

/-- C9 amended: severity classification is keyword-driven with the
high-severity terms blacklist, ban, **illegal**, attack, flood: any of them
(case-insensitively) gives HIGH; otherwise a rate limit / suspicious /
failure term gives MEDIUM; every other reason gives LOW. -/
theorem c9_severity_classification (reason : String) :
    (calculateSeverity reason = "HIGH" ↔
      (["blacklist", "ban", "illegal", "attack", "flood"].any
        (fun k => jsIncludes (jsLower reason) k)) = true) ∧
    (calculateSeverity reason = "MEDIUM" ↔
      ((["blacklist", "ban", "illegal", "attack", "flood"].any
          (fun k => jsIncludes (jsLower reason) k)) = false ∧
        (["rate limit", "suspicious", "failure"].any
          (fun k => jsIncludes (jsLower reason) k)) = true)) ∧
    (calculateSeverity reason = "LOW" ↔
      ((["blacklist", "ban", "illegal", "attack", "flood"].any
          (fun k => jsIncludes (jsLower reason) k)) = false ∧
        (["rate limit", "suspicious", "failure"].any
          (fun k => jsIncludes (jsLower reason) k)) = false)) := by
  by_cases hh : (["blacklist", "ban", "illegal", "attack", "flood"].any
      (fun k => jsIncludes (jsLower reason) k)) = true
  · refine ⟨⟨fun _ => hh, fun _ => ?_⟩, ⟨fun he => ?_, fun he => ?_⟩,
      ⟨fun he => ?_, fun he => ?_⟩⟩
    · simp [calculateSeverity, hh]
    · rw [calculateSeverity] at he
      simp only [hh, if_true] at he
      exact absurd he (by decide)
    · exact absurd hh (by simp [he.1])
    · rw [calculateSeverity] at he
      simp only [hh, if_true] at he
      exact absurd he (by decide)
    · exact absurd hh (by simp [he.1])
  · have hh' : (["blacklist", "ban", "illegal", "attack", "flood"].any
        (fun k => jsIncludes (jsLower reason) k)) = false := by
      simpa using hh
    by_cases hm : (["rate limit", "suspicious", "failure"].any
        (fun k => jsIncludes (jsLower reason) k)) = true
    · refine ⟨⟨fun he => ?_, fun he => absurd he (by simp [hh'])⟩,
        ⟨fun _ => ⟨hh', hm⟩, fun _ => ?_⟩, ⟨fun he => ?_, fun he => ?_⟩⟩
      · rw [calculateSeverity] at he
        simp only [hh', if_false, hm, if_true] at he
        exact absurd he (by decide)
      · simp [calculateSeverity, hh', hm]
      · rw [calculateSeverity] at he
        simp only [hh', if_false, hm, if_true] at he
        exact absurd he (by decide)
      · exact absurd hm (by simp [he.2])
    · have hm' : (["rate limit", "suspicious", "failure"].any
          (fun k => jsIncludes (jsLower reason) k)) = false := by
        simpa using hm
      refine ⟨⟨fun he => ?_, fun he => absurd he (by simp [hh'])⟩,
        ⟨fun he => ?_, fun he => absurd hm (by simp [he.2])⟩,
        ⟨fun _ => ⟨hh', hm'⟩, fun _ => ?_⟩⟩
      · rw [calculateSeverity] at he
        simp only [hh', if_false, hm', if_false] at he
        exact absurd he (by decide)
      · rw [calculateSeverity] at he
        simp only [hh', if_false, hm', if_false] at he
        exact absurd he (by decide)
      · simp [calculateSeverity, hh', hm']

/-- Witness for C9: one reason of each severity class. -/
theorem c9_severity_classification_witness :
    calculateSeverity "flood warning" = "HIGH" ∧
    calculateSeverity "repeated failure" = "MEDIUM" ∧
    calculateSeverity "hello" = "LOW" :=
  ⟨(c9_severity_classification "flood warning").1.mpr (by decide),
   (c9_severity_classification "repeated failure").2.1.mpr ⟨by decide, by decide⟩,
   (c9_severity_classification "hello").2.2.mpr ⟨by decide, by decide⟩⟩

/-! ## Claim C5 — checkRateLimit purity (corrected) -/

/-- C5 counterexample: `checkRateLimit` is not a pure check — on a fresh
state it already mutates the per-IP window table (it inserts the pruned
entry for the caller). -/
theorem c5_checkRateLimit_not_pure_counterexample :
    (checkRateLimit AbuseState.init 0 "1.2.3.4" none).1 ≠ AbuseState.init ∧
    ((checkRateLimit AbuseState.init 0 "1.2.3.4" none).1).ipTracker ≠
      AbuseState.init.ipTracker := by
  refine ⟨by decide, by decide⟩

/-- C5 amended: `checkRateLimit` mutates rate-limiter state — it always
writes back the pruned per-IP window entry (creating it if absent), adds the
caller to the suspicious set and files a MEDIUM report when the request cap
is reached, and adds the caller to the ban set when the failure cap is
reached (its only writes to those two sets); `recordRequest` touches only
the window tables (never the suspicious set, the ban set, or the incident
ledger), and `recordFailure` never touches the suspicious set or the
per-domain table — so `recordRequest`/`recordFailure` are not the only
mutators. -/
theorem c5_checkRateLimit_mutations (s : AbuseState) (now : Nat) (ip : String)
    (d : Option String) (r : String) :
    (mapLookup ((checkRateLimit s now ip d).1).ipTracker (ipKey ip)).isSome = true ∧
    (((checkRateLimit s now ip d).1).bannedIPs = s.bannedIPs ∨
      ((checkRateLimit s now ip d).1).bannedIPs = setAdd s.bannedIPs ip) ∧
    (((checkRateLimit s now ip d).1).suspiciousIPs = s.suspiciousIPs ∨
      ((checkRateLimit s now ip d).1).suspiciousIPs = setAdd s.suspiciousIPs ip) ∧
    ((pruneWindow now ((mapLookup s.ipTracker (ipKey ip)).getD ⟨[], []⟩).requests).length ≥
        maxRequestsPerIP →
      setHas ((checkRateLimit s now ip d).1).suspiciousIPs ip = true ∧
      ((checkRateLimit s now ip d).1).reports.getLast? =
        some ⟨ip, "Rate limit exceeded", "MEDIUM"⟩) ∧
    (¬ (pruneWindow now ((mapLookup s.ipTracker (ipKey ip)).getD ⟨[], []⟩).requests).length ≥
        maxRequestsPerIP →
      (pruneWindow now ((mapLookup s.ipTracker (ipKey ip)).getD ⟨[], []⟩).failures).length ≥
        maxFailedAttempts →
      setHas ((checkRateLimit s now ip d).1).bannedIPs ip = true) ∧
    ((recordRequest s now ip d).suspiciousIPs = s.suspiciousIPs ∧
      (recordRequest s now ip d).bannedIPs = s.bannedIPs ∧
      (recordRequest s now ip d).reports = s.reports) ∧
    ((recordFailure s now ip r).suspiciousIPs = s.suspiciousIPs ∧
      (recordFailure s now ip r).domainTracker = s.domainTracker) := by
  refine ⟨?_, checkRateLimit_banned_cases s now ip d,
    checkRateLimit_suspicious_cases s now ip d, ?_, ?_, ?_, ?_⟩
  · rw [checkRateLimit_ipTracker, mapLookup_mapSet_self]
    rfl
  · intro hcap
    unfold checkRateLimit
    dsimp only
    rw [if_pos hcap]
    constructor
    · simp only [flagSuspiciousIP, reportAbuse]
      exact setHas_setAdd_self _ _
    · simp only [flagSuspiciousIP, reportAbuse]
      have hs : calculateSeverity "Rate limit exceeded" = "MEDIUM" := by decide
      rw [hs]
      exact capReports_getLast _ _
  · intro hcap hfail
    unfold checkRateLimit
    dsimp only
    rw [if_neg hcap, if_pos hfail]
    exact setHas_setAdd_self _ _
  · unfold recordRequest
    cases d with
    | none => exact ⟨rfl, rfl, rfl⟩
    | some dom => exact ⟨rfl, rfl, rfl⟩
  · unfold recordFailure
    dsimp only
    constructor
    · split
      · split
        · simp [reportAbuse]
        · rfl
      · rfl
    · split
      · split
        · simp [reportAbuse]
        · rfl
      · rfl

/-- Witness for C5: the request-cap branch fires on a window holding 100
requests, and `recordRequest` leaves the incident ledger alone. -/
theorem c5_checkRateLimit_mutations_witness :
    setHas ((checkRateLimit ⟨[("ip_a", ⟨List.replicate 100 0, []⟩)], [], [], [], []⟩
        0 "a" none).1).suspiciousIPs "a" = true ∧
    (recordRequest AbuseState.init 0 "b" none).reports = AbuseState.init.reports := by
  have h := c5_checkRateLimit_mutations
    ⟨[("ip_a", ⟨List.replicate 100 0, []⟩)], [], [], [], []⟩ 0 "a" none "r"
  have h2 := c5_checkRateLimit_mutations AbuseState.init 0 "b" none "r"
  exact ⟨(h.2.2.2.1 (by decide)).1, h2.2.2.2.2.2.1.2.2⟩

/-! ## Blacklist lemmas -/

theorem splitCharList_ne_nil (sep : Char) (cs : List Char) :
    splitCharList sep cs ≠ [] := by
  induction cs with
  | nil => simp [splitCharList]
  | cons c cs ih =>
    have hstep : splitCharList sep (c :: cs) =
        if c = sep then [] :: splitCharList sep cs
        else
          match splitCharList sep cs with
          | [] => [[c]]
          | g :: gs => (c :: g) :: gs := rfl
    rw [hstep]
    by_cases hc : c = sep
    · simp [hc]
    · simp only [hc, if_false]
      cases h : splitCharList sep cs with
      | nil => simp
      | cons g gs => simp

theorem joinSepChar_splitCharList (sep : Char) (cs : List Char) :
    joinSepChar sep (splitCharList sep cs) = cs := by
  induction cs with
  | nil => rfl
  | cons c cs ih =>
    have hstep : splitCharList sep (c :: cs) =
        if c = sep then [] :: splitCharList sep cs
        else
          match splitCharList sep cs with
          | [] => [[c]]
          | g :: gs => (c :: g) :: gs := rfl
    rw [hstep]
    by_cases hc : c = sep
    · simp only [hc, if_true]
      cases h : splitCharList sep cs with
      | nil => exact absurd h (splitCharList_ne_nil sep cs)
      | cons g gs =>
        rw [h] at ih
        show [] ++ sep :: joinSepChar sep (g :: gs) = sep :: cs
        rw [List.nil_append, ih]
    · simp only [hc, if_false]
      cases h : splitCharList sep cs with
      | nil => exact absurd h (splitCharList_ne_nil sep cs)
      | cons g gs =>
        rw [h] at ih
        cases gs with
        | nil =>
          show c :: g = c :: cs
          rw [show joinSepChar sep [g] = g from rfl] at ih
          rw [ih]
        | cons g' gs' =>
          show (c :: g) ++ sep :: joinSepChar sep (g' :: gs') = c :: cs
          rw [List.cons_append]
          exact congrArg (c :: ·) ih

theorem joinDot_jsSplit (s : String) : joinDot (jsSplit '.' s) = s := by
  unfold joinDot jsSplit
  rw [List.map_map]
  have hid : (String.data ∘ fun g => (⟨g⟩ : String)) = id := rfl
  rw [hid, List.map_id, joinSepChar_splitCharList]

theorem parentDomainHit_some (domains parts : List String) (p : String)
    (h : parentDomainHit domains parts = some p) :
    ∃ i, i < parts.length - 1 ∧ setHas domains (joinDot (parts.drop i)) = true := by
  obtain ⟨i, hi, hf⟩ := List.exists_of_findSome?_eq_some h
  rw [List.mem_range] at hi
  refine ⟨i, hi, ?_⟩
  by_cases hs : setHas domains (joinDot (parts.drop i)) = true
  · exact hs
  · simp only [hs] at hf
    simp at hf

theorem parentDomainHit_none (domains parts : List String)
    (h : parentDomainHit domains parts = none) :
    ∀ i, i < parts.length - 1 → setHas domains (joinDot (parts.drop i)) = false := by
  intro i hi
  have hf := List.findSome?_eq_none_iff.mp h i (List.mem_range.mpr hi)
  by_cases hs : setHas domains (joinDot (parts.drop i)) = true
  · simp only [hs] at hf
    simp at hf
  · simpa using hs

theorem mem_specParentDomains (domain p : String) :
    p ∈ specParentDomains domain ↔
      ∃ t, t <:+ jsSplit '.' domain ∧ 2 ≤ t.length ∧
        t.length < (jsSplit '.' domain).length ∧ p = joinDot t := by
  unfold specParentDomains
  simp only [List.mem_map, List.mem_filter, List.mem_tails, Bool.and_eq_true,
    decide_eq_true_eq]
  constructor
  · rintro ⟨t, ⟨hsuf, hlen1, hlen2⟩, rfl⟩
    exact ⟨t, hsuf, hlen1, hlen2, rfl⟩
  · rintro ⟨t, hsuf, hlen1, hlen2, rfl⟩
    exact ⟨t, ⟨hsuf, hlen1, hlen2⟩, rfl⟩

/-! ## Claim C7 — blacklist suffix matching -/

/-- C7: the blacklist check blocks a hostname exactly when the exact
hostname or some parent-domain suffix (a proper label suffix keeping at
least two labels, per the spec's example) is in the blacklist set; in
particular `shop.amazon.com` is blocked through its parent `amazon.com`
with no exact entry for the subdomain, and a hostname matching no entry and
no suffix passes the blacklist stage of `validateUrl`. -/
theorem c7_blacklist_suffix_matching :
    (∀ (domains : List String) (domain : String),
        ((isBlacklisted domains domain).1 = true ↔
          setHas domains domain = true ∨
          ∃ p ∈ specParentDomains domain, setHas domains p = true)) ∧
    (isBlacklisted staticBlacklist "shop.amazon.com").1 = true ∧
    setHas staticBlacklist "shop.amazon.com" = false ∧
    "amazon.com" ∈ specParentDomains "shop.amazon.com" ∧
    setHas staticBlacklist "amazon.com" = true ∧
    (isBlacklisted staticBlacklist "example.org").1 = false ∧
    validateUrl staticBlacklist true "example.org" "/" RobotsFetch.noFile =
      (true, "URL validated") := by
  refine ⟨?_, by decide, by decide, by decide, by decide, by decide, by decide⟩
  intro domains domain
  unfold isBlacklisted
  by_cases hex : setHas domains domain = true
  · simp [hex]
  · have hex' : setHas domains domain = false := by simpa using hex
    simp only [hex', Bool.false_eq_true, if_false]
    cases hph : parentDomainHit domains (jsSplit '.' domain) with
    | some p =>
      simp only [true_iff]
      obtain ⟨i, hi, hhas⟩ := parentDomainHit_some domains _ p hph
      rcases Nat.eq_zero_or_pos i with hz | hpos
      · subst hz
        rw [List.drop_zero, joinDot_jsSplit] at hhas
        exact absurd hhas (by simp [hex'])
      · right
        refine ⟨joinDot ((jsSplit '.' domain).drop i), ?_, hhas⟩
        rw [mem_specParentDomains]
        refine ⟨(jsSplit '.' domain).drop i, List.drop_suffix i _, ?_, ?_, rfl⟩
        · rw [List.length_drop]
          omega
        · rw [List.length_drop]
          omega
    | none =>
      simp only [Bool.false_eq_true, false_iff]
      push_neg
      constructor
      · simp [hex']
      · rintro p hp
        rw [mem_specParentDomains] at hp
        obtain ⟨t, hsuf, hlen1, hlen2, rfl⟩ := hp
        have hdrop := List.suffix_iff_eq_drop.mp hsuf
        have hi : (jsSplit '.' domain).length - t.length <
            (jsSplit '.' domain).length - 1 := by
          have := hsuf.length_le
          omega
        have hnone := parentDomainHit_none domains _ hph
          ((jsSplit '.' domain).length - t.length) hi
        rw [← hdrop] at hnone
        simp [hnone]
  
/-- Witness for C7: the concrete evaluations at `shop.amazon.com` (blocked
through its parent) and `example.org` (allowed). -/
theorem c7_blacklist_suffix_matching_witness :
    (isBlacklisted staticBlacklist "shop.amazon.com").1 = true ∧
    (isBlacklisted staticBlacklist "example.org").1 = false :=
  ⟨c7_blacklist_suffix_matching.2.1, c7_blacklist_suffix_matching.2.2.2.2.2.1⟩

/-! ## Robots.txt lemmas -/

theorem disallow_not_ua (line : String) (h : jsStartsWith line "disallow:" = true) :
    jsStartsWith line "user-agent:" = false := by
  unfold jsStartsWith at *
  rw [List.isPrefixOf_iff_prefix] at h
  rw [← Bool.not_eq_true, List.isPrefixOf_iff_prefix]
  intro hu
  obtain ⟨t1, h1⟩ := h
  obtain ⟨t2, h2⟩ := hu
  rw [← h1] at h2
  have hD : "disallow:".data = 'd' :: "isallow:".data := by decide
  have hU : "user-agent:".data = 'u' :: "ser-agent:".data := by decide
  rw [hD, hU, List.cons_append, List.cons_append] at h2
  injection h2 with hh _
  exact absurd hh (by decide)

theorem uaFlagAfter_nil (cur : Bool) : uaFlagAfter [] cur = cur := rfl

theorem uaFlagAfter_cons (line : String) (l : List String) (cur : Bool) :
    uaFlagAfter (line :: l) cur =
      uaFlagAfter l
        (if jsStartsWith line "user-agent:" then agentApplicable (afterColon line) else cur) :=
  rfl

theorem robotsScan_blocked_iff (path : String) (lines : List String) (cur : Bool) :
    robotsScan path lines cur = true ↔
      ∃ l1 line l2, lines = l1 ++ line :: l2 ∧ uaFlagAfter l1 cur = true ∧
        jsStartsWith line "disallow:" = true ∧ disallowBlocks path line = true := by
  induction lines generalizing cur with
  | nil =>
    constructor
    · intro h
      exact absurd h (by simp [robotsScan])
    · rintro ⟨l1, ln, l2, heq, -, -, -⟩
      cases l1 <;> simp at heq
  | cons line rest ih =>
    have hstep : robotsScan path (line :: rest) cur =
        (if (if jsStartsWith line "user-agent:" then agentApplicable (afterColon line) else cur) &&
            jsStartsWith line "disallow:" && disallowBlocks path line then true
         else robotsScan path rest
           (if jsStartsWith line "user-agent:" then agentApplicable (afterColon line) else cur)) :=
      rfl
    rw [hstep]
    set c2 := if jsStartsWith line "user-agent:" then agentApplicable (afterColon line) else cur
      with hc2
    by_cases hhit : (c2 && jsStartsWith line "disallow:" && disallowBlocks path line) = true
    · rw [if_pos hhit]
      have hands := (Bool.and_eq_true _ _).mp hhit
      have hcc : c2 = true := ((Bool.and_eq_true _ _).mp hands.1).1
      have hd : jsStartsWith line "disallow:" = true := ((Bool.and_eq_true _ _).mp hands.1).2
      have hb : disallowBlocks path line = true := hands.2
      have hua : jsStartsWith line "user-agent:" = false := disallow_not_ua line hd
      have hcur : cur = true := by
        rw [hc2, hua] at hcc
        simpa using hcc
      constructor
      · intro _
        exact ⟨[], line, rest, rfl, by rw [uaFlagAfter_nil, hcur], hd, hb⟩
      · intro _
        rfl
    · rw [if_neg hhit, ih c2]
      constructor
      · rintro ⟨l1, ln, l2, heq, hua, hd, hb⟩
        refine ⟨line :: l1, ln, l2, by rw [heq, List.cons_append], ?_, hd, hb⟩
        rw [uaFlagAfter_cons, ← hc2]
        exact hua
      · rintro ⟨l1, ln, l2, heq, hua, hd, hb⟩
        cases l1 with
        | nil =>
          simp only [List.nil_append] at heq
          injection heq with h1 h2
          subst h1
          subst h2
          exfalso
          apply hhit
          have huaL : jsStartsWith line "user-agent:" = false := disallow_not_ua line hd
          have hcur : cur = true := by
            rw [uaFlagAfter_nil] at hua
            exact hua
          rw [hc2, huaL]
          simp [hcur, hd, hb]
        | cons a l1' =>
          simp only [List.cons_append] at heq
          injection heq with h1 h2
          subst h1
          refine ⟨l1', ln, l2, h2, ?_, hd, hb⟩
          rw [uaFlagAfter_cons, ← hc2] at hua
          exact hua

/-! ## Claim C8 — robots.txt user-agent blocks (corrected) -/

/-- C8 counterexample: in a robots.txt whose first applicable block (`*`)
does not disallow `/secret`, a `Disallow: /secret` line in a *later*
applicable block (`somebot`) does block the request: the code merges all
applicable blocks, while the first-matching-block-only semantics stated by
the spec (`specRobotsBlockedFirstOnly`) would allow it. A `Disallow` line
under the inapplicable `zzz` block is correctly ignored either way. -/
theorem c8_robots_later_block_counterexample :
    (parseRobotsTxt
        "user-agent: *\ndisallow: /a\nuser-agent: zzz\ndisallow: /b\nuser-agent: somebot\ndisallow: /secret"
        "/secret").1 = false ∧
    specRobotsBlockedFirstOnly
        "user-agent: *\ndisallow: /a\nuser-agent: zzz\ndisallow: /b\nuser-agent: somebot\ndisallow: /secret"
        "/secret" = false ∧
    (parseRobotsTxt "user-agent: *\ndisallow: /a\nuser-agent: zzz\ndisallow: /b"
        "/secret").1 = true := by
  refine ⟨by decide, by decide, by decide⟩

/-- C8 amended: a user-agent token equal to `*` or containing "bot" or
"spider" is applicable, and the `Disallow` rules of **every** applicable
block apply (the scan merges applicable blocks): a request is blocked
exactly when some `disallow:` line whose most recent preceding
`user-agent:` line is applicable matches the path — lines from later
applicable blocks can block the request. -/
theorem c8_robots_merged_blocks :
    (∀ agent, agentApplicable agent = true ↔
        (agent = "*" ∨ jsIncludes agent "bot" = true ∨ jsIncludes agent "spider" = true)) ∧
    (∀ content path, (parseRobotsTxt content path).1 = false ↔
        ∃ l1 line l2, robotsLines content = l1 ++ line :: l2 ∧
          uaFlagAfter l1 false = true ∧ jsStartsWith line "disallow:" = true ∧
          disallowBlocks path line = true) := by
  constructor
  · intro agent
    simp only [agentApplicable, Bool.or_eq_true, beq_iff_eq]
    rw [or_assoc]
  · intro content path
    have hb : (parseRobotsTxt content path).1 =
        !robotsScan path (robotsLines content) false := rfl
    rw [hb, Bool.not_eq_false']
    exact robotsScan_blocked_iff path (robotsLines content) false

/-- Witness for C8's amended theorem: the `googlebot` token is applicable,
and the counterexample content is blocked precisely through the later
`somebot` block. -/
theorem c8_robots_merged_blocks_witness :
    agentApplicable "googlebot" = true ∧
    (parseRobotsTxt "user-agent: somebot\ndisallow: /secret" "/secret").1 = false :=
  ⟨(c8_robots_merged_blocks.1 "googlebot").mpr (Or.inr (Or.inl (by decide))),
   (c8_robots_merged_blocks.2 "user-agent: somebot\ndisallow: /secret" "/secret").mpr
     ⟨["user-agent: somebot"], "disallow: /secret", [], by decide, by decide,
      by decide, by decide⟩⟩

/-! ## Gateway pipeline lemmas -/

theorem consume_used_preserved (m : TokenMap) (now : Nat) (tok tier : String)
    (hv : ((validateAndConsumeCredit m now tok tier).2).valid = false) :
    ∀ (tokenId : String) (t' : Token),
      mapLookup (validateAndConsumeCredit m now tok tier).1 tokenId = some t' →
      ∃ t : Token, mapLookup m tokenId = some t ∧ t'.usedCredits = t.usedCredits := by
  intro tokenId t' hl'
  cases hl : mapLookup m tok with
  | none =>
    rw [consume_invalid_eq m now tok tier hl] at hl'
    exact ⟨t', hl', rfl⟩
  | some t =>
    by_cases hexp : now > t.expiresAt
    · rw [consume_expired_eq m now tok tier t hl hexp] at hl'
      exact ⟨t', mapLookup_of_mapErase m tok tokenId t' hl', rfl⟩
    · by_cases hin : t.credits - t.usedCredits < creditCost tier
      · rw [consume_insufficient_eq m now tok tier t hl hexp hin] at hl'
        exact ⟨t', hl', rfl⟩
      · rw [consume_success_eq m now tok tier t hl hexp hin] at hv
        simp [ConsumeResult.valid] at hv

theorem testScrape_banned_denies (st : ServerState) (now : Nat) (ip : String)
    (ug uo : Bool) (host path : String) (domains : List String)
    (fetch : RobotsFetch) (outcome : ExtractOutcome)
    (h : checkIPStatus st.abuse ip = IPStatus.banned) :
    testScrapeEndpoint st now ip ug uo host path domains fetch outcome =
      (st, ⟨403, false⟩) := by
  unfold testScrapeEndpoint testScrapeHandler
  rw [if_pos h]

theorem testScrape_extraction_gates (st : ServerState) (now : Nat) (ip : String)
    (ug uo : Bool) (host path : String) (domains : List String)
    (fetch : RobotsFetch) (outcome : ExtractOutcome)
    (h : ((testScrapeEndpoint st now ip ug uo host path domains fetch outcome).2).extractionAttempted
      = true) :
    checkIPStatus st.abuse ip ≠ IPStatus.banned ∧
    ((checkRateLimit st.abuse now ip
        (if ug then some (if uo then host else "invalid-url") else none)).2).isAllowed = true ∧
    ug = true ∧ (validateUrl domains uo host path fetch).1 = true := by
  unfold testScrapeEndpoint testScrapeHandler at h
  by_cases hban : checkIPStatus st.abuse ip = IPStatus.banned
  · rw [if_pos hban] at h
    simp at h
  · rw [if_neg hban] at h
    simp only at h
    rcases hrl : checkRateLimit st.abuse now ip
        (if ug then some (if uo then host else "invalid-url") else none) with ⟨s1, r⟩
    rw [hrl] at h
    dsimp only at h
    by_cases hallow : r.isAllowed = true
    · refine ⟨hban, hallow, ?_, ?_⟩
      · by_cases hug : ug = true
        · exact hug
        · exfalso
          simp only [hallow, Bool.not_true, Bool.false_eq_true, if_false, hug] at h
          simp at h
      · by_cases hval : (validateUrl domains uo host path fetch).1 = true
        · exact hval
        · exfalso
          have hug : ug = true := by
            by_cases hug : ug = true
            · exact hug
            · simp only [hallow, Bool.not_true, Bool.false_eq_true, if_false, hug] at h
              simp at h
          simp only [hallow, Bool.not_true, Bool.false_eq_true, if_false, hug,
            if_true, Bool.not_eq_true] at h
          rw [Bool.not_eq_true] at hval
          simp only [hval] at h
          simp at h
    · exfalso
      rw [Bool.not_eq_true] at hallow
      simp only [hallow, Bool.not_false, if_true] at h
      simp at h

theorem testScrape_credits_frame (st : ServerState) (now : Nat) (ip : String)
    (ug uo : Bool) (host path : String) (domains : List String)
    (fetch : RobotsFetch) (outcome : ExtractOutcome) :
    ((testScrapeEndpoint st now ip ug uo host path domains fetch outcome).1).credits =
      st.credits := rfl

theorem scrape_abuse_frame (st : ServerState) (now : Nat) (ip host tok tier : String)
    (outcome : ExtractOutcome) :
    ((scrapeEndpoint st now ip host tok tier outcome).1).abuse = st.abuse := rfl

theorem scrapeHandler_status_cases (m : TokenMap) (now : Nat) (host tok tier : String)
    (outcome : ExtractOutcome) :
    ((scrapeHandler m now host tok tier outcome).2).status = 400 ∨
    ((scrapeHandler m now host tok tier outcome).2).status = 402 ∨
    ((scrapeHandler m now host tok tier outcome).2).status = 200 ∨
    ((scrapeHandler m now host tok tier outcome).2).status = 500 := by
  unfold scrapeHandler
  split
  · left; rfl
  split
  · left; rfl
  rcases hvc : validateAndConsumeCredit m now tok tier with ⟨m', r⟩
  cases r with
  | ok rem tr =>
    cases outcome with
    | ok => right; right; left; rfl
    | fail => right; right; right; rfl
    | crash => right; right; right; rfl
  | invalidToken => right; left; rfl
  | expired => right; left; rfl
  | insufficient a b => right; left; rfl

theorem scrape_legality_denies (m : TokenMap) (now : Nat) (host tok tier : String)
    (outcome : ExtractOutcome) (hhost : ¬ host = "") (htok : ¬ tok = "")
    (hurl : isValidUrl host = false) :
    scrapeHandler m now host tok tier outcome = (m, ⟨400, false, false⟩) := by
  unfold scrapeHandler
  have hb1 : (host == "") = false := beq_eq_false_iff_ne.mpr hhost
  have hb2 : (tok == "") = false := beq_eq_false_iff_ne.mpr htok
  simp [hb1, hb2, hurl]

theorem scrape_credit_denies (m : TokenMap) (now : Nat) (host tok tier : String)
    (outcome : ExtractOutcome)
    (hv : ((validateAndConsumeCredit m now tok tier).2).valid = false) :
    ((scrapeHandler m now host tok tier outcome).2).extractionAttempted = false ∧
    (∀ (tokenId : String) (t' : Token),
        mapLookup (scrapeHandler m now host tok tier outcome).1 tokenId = some t' →
        ∃ t : Token, mapLookup m tokenId = some t ∧ t'.usedCredits = t.usedCredits) := by
  unfold scrapeHandler
  split
  · exact ⟨rfl, fun tokenId t' hl => ⟨t', hl, rfl⟩⟩
  split
  · exact ⟨rfl, fun tokenId t' hl => ⟨t', hl, rfl⟩⟩
  rcases hvc : validateAndConsumeCredit m now tok tier with ⟨m', r⟩
  rw [hvc] at hv
  cases r with
  | ok rem tr => simp [ConsumeResult.valid] at hv
  | invalidToken =>
    refine ⟨rfl, fun tokenId t' hl => ?_⟩
    have := consume_used_preserved m now tok tier (by rw [hvc]; exact hv) tokenId t'
    rw [hvc] at this
    exact this hl
  | expired =>
    refine ⟨rfl, fun tokenId t' hl => ?_⟩
    have := consume_used_preserved m now tok tier (by rw [hvc]; exact hv) tokenId t'
    rw [hvc] at this
    exact this hl
  | insufficient a b =>
    refine ⟨rfl, fun tokenId t' hl => ?_⟩
    have := consume_used_preserved m now tok tier (by rw [hvc]; exact hv) tokenId t'
    rw [hvc] at this
    exact this hl

theorem scrape_extraction_gates (m : TokenMap) (now : Nat) (host tok tier : String)
    (outcome : ExtractOutcome)
    (h : ((scrapeHandler m now host tok tier outcome).2).extractionAttempted = true) :
    ¬ host = "" ∧ ¬ tok = "" ∧ isValidUrl host = true ∧
    ((validateAndConsumeCredit m now tok tier).2).valid = true := by
  unfold scrapeHandler at h
  by_cases hmiss : (host == "" || tok == "") = true
  · rw [if_pos hmiss] at h
    simp at h
  · rw [if_neg hmiss] at h
    simp only [Bool.or_eq_true, not_or, Bool.not_eq_true, beq_eq_false_iff_ne] at hmiss
    by_cases hurl : isValidUrl host = true
    · refine ⟨hmiss.1, hmiss.2, hurl, ?_⟩
      simp only [hurl, Bool.not_true, Bool.false_eq_true, if_false] at h
      rcases hvc : validateAndConsumeCredit m now tok tier with ⟨m', r⟩
      rw [hvc] at h
      cases r with
      | ok rem tr => rfl
      | invalidToken => simp at h
      | expired => simp at h
      | insufficient a b => simp at h
    · exfalso
      rw [Bool.not_eq_true] at hurl
      simp only [hurl, Bool.not_false, if_true] at h
      simp at h

/-! ## Claim C4 — admission pipeline order (corrected) -/

/-- C4 counterexample: no endpoint runs the claimed five-stage pipeline.
On `/scrape`, a banned caller (here `6.6.6.6`, banned in the abuse state)
is **not** denied: the handler never consults the ban state, consumes a
credit and attempts extraction. -/
theorem c4_pipeline_counterexample :
    checkIPStatus (AbuseState.mk [] [] [] ["6.6.6.6"] []) "6.6.6.6" = IPStatus.banned ∧
    ((scrapeEndpoint
        ⟨generateAccessToken [] "tok" 0 "basic", AbuseState.mk [] [] [] ["6.6.6.6"] []⟩
        5 "6.6.6.6" "example.org" "tok" "basic" ExtractOutcome.ok).2).status = 200 ∧
    ((scrapeEndpoint
        ⟨generateAccessToken [] "tok" 0 "basic", AbuseState.mk [] [] [] ["6.6.6.6"] []⟩
        5 "6.6.6.6" "example.org" "tok" "basic" ExtractOutcome.ok).2).extractionAttempted
      = true ∧
    (mapLookup
        ((scrapeEndpoint
          ⟨generateAccessToken [] "tok" 0 "basic", AbuseState.mk [] [] [] ["6.6.6.6"] []⟩
          5 "6.6.6.6" "example.org" "tok" "basic" ExtractOutcome.ok).1).credits
        "tok").map Token.usedCredits = some 1 := by
  refine ⟨by decide, by decide, by decide, by decide⟩

/-- C4 amended: the pipeline is split across two endpoints. `/test-scrape`
runs ban check, then rate admission, then URL-presence and legality checks,
then extraction, short-circuiting on the first denial — a banned caller is
denied with a 403 and an unchanged state, extraction runs only after every
stage passed, and the credit ledger is never touched. `/scrape` runs
missing-field check, then restricted-domain legality check, then credit
consume, then extraction — a legality denial leaves the ledger untouched,
a credit denial prevents extraction and increases no account's
`usedCredits`, and extraction runs only after all its stages passed — but
it performs no ban or rate check (its responses are never 403/429 and the
abuse state is never touched), so a banned caller's `/scrape` request
proceeds. -/
theorem c4_pipeline_stages :
    (∀ (st : ServerState) (now : Nat) (ip : String) (ug uo : Bool)
        (host path : String) (domains : List String) (fetch : RobotsFetch)
        (outcome : ExtractOutcome),
        (checkIPStatus st.abuse ip = IPStatus.banned →
          testScrapeEndpoint st now ip ug uo host path domains fetch outcome =
            (st, ⟨403, false⟩)) ∧
        (((testScrapeEndpoint st now ip ug uo host path domains fetch
              outcome).2).extractionAttempted = true →
          checkIPStatus st.abuse ip ≠ IPStatus.banned ∧
          ((checkRateLimit st.abuse now ip
              (if ug then some (if uo then host else "invalid-url")
               else none)).2).isAllowed = true ∧
          ug = true ∧ (validateUrl domains uo host path fetch).1 = true) ∧
        ((testScrapeEndpoint st now ip ug uo host path domains fetch
            outcome).1).credits = st.credits) ∧
    (∀ (st : ServerState) (now : Nat) (ip host tok tier : String)
        (outcome : ExtractOutcome),
        ((scrapeEndpoint st now ip host tok tier outcome).1).abuse = st.abuse ∧
        ((scrapeEndpoint st now ip host tok tier outcome).2).status ≠ 403 ∧
        ((scrapeEndpoint st now ip host tok tier outcome).2).status ≠ 429) ∧
    (∀ (m : TokenMap) (now : Nat) (host tok tier : String) (outcome : ExtractOutcome),
        (¬ host = "" → ¬ tok = "" → isValidUrl host = false →
          scrapeHandler m now host tok tier outcome = (m, ⟨400, false, false⟩)) ∧
        (((validateAndConsumeCredit m now tok tier).2).valid = false →
          ((scrapeHandler m now host tok tier outcome).2).extractionAttempted = false ∧
          ∀ (tokenId : String) (t' : Token),
            mapLookup (scrapeHandler m now host tok tier outcome).1 tokenId = some t' →
            ∃ t : Token, mapLookup m tokenId = some t ∧
              t'.usedCredits = t.usedCredits) ∧
        (((scrapeHandler m now host tok tier outcome).2).extractionAttempted = true →
          ¬ host = "" ∧ ¬ tok = "" ∧ isValidUrl host = true ∧
          ((validateAndConsumeCredit m now tok tier).2).valid = true)) := by
  refine ⟨?_, ?_, ?_⟩
  · intro st now ip ug uo host path domains fetch outcome
    exact ⟨testScrape_banned_denies st now ip ug uo host path domains fetch outcome,
      testScrape_extraction_gates st now ip ug uo host path domains fetch outcome,
      testScrape_credits_frame st now ip ug uo host path domains fetch outcome⟩
  · intro st now ip host tok tier outcome
    refine ⟨scrape_abuse_frame st now ip host tok tier outcome, ?_, ?_⟩
    · rcases scrapeHandler_status_cases st.credits now host tok tier outcome with
        h | h | h | h <;>
      · show ((scrapeHandler st.credits now host tok tier outcome).2).status ≠ 403
        rw [h]
        decide
    · rcases scrapeHandler_status_cases st.credits now host tok tier outcome with
        h | h | h | h <;>
      · show ((scrapeHandler st.credits now host tok tier outcome).2).status ≠ 429
        rw [h]
        decide
  · intro m now host tok tier outcome
    exact ⟨scrape_legality_denies m now host tok tier outcome,
      scrape_credit_denies m now host tok tier outcome,
      scrape_extraction_gates m now host tok tier outcome⟩

/-- Witness for C4's amended theorem: a banned caller is denied on
`/test-scrape` with unchanged state, and a `/scrape` with an unknown token
attempts no extraction. -/
theorem c4_pipeline_stages_witness :
    testScrapeEndpoint ⟨[], AbuseState.mk [] [] [] ["6.6.6.6"] []⟩ 0 "6.6.6.6"
        true true "example.org" "/" [] RobotsFetch.noFile ExtractOutcome.ok =
      (⟨[], AbuseState.mk [] [] [] ["6.6.6.6"] []⟩, ⟨403, false⟩) ∧
    ((scrapeHandler [] 0 "example.org" "tok" "basic" ExtractOutcome.ok).2).extractionAttempted
      = false := by
  have h1 := (c4_pipeline_stages.1 ⟨[], AbuseState.mk [] [] [] ["6.6.6.6"] []⟩ 0 "6.6.6.6"
    true true "example.org" "/" [] RobotsFetch.noFile ExtractOutcome.ok).1 (by decide)
  have h2 := ((c4_pipeline_stages.2.2 [] 0 "example.org" "tok" "basic"
    ExtractOutcome.ok).2.1 (by decide)).1
  exact ⟨h1, h2⟩

/-! ## Ban-escalation lemmas -/

theorem recordFailure_ipTracker (s : AbuseState) (now : Nat) (ip reason : String) :
    (recordFailure s now ip reason).ipTracker =
      mapSet s.ipTracker (ipKey ip)
        ⟨((mapLookup s.ipTracker (ipKey ip)).getD ⟨[], []⟩).requests,
         ((mapLookup s.ipTracker (ipKey ip)).getD ⟨[], []⟩).failures ++ [now]⟩ := by
  unfold recordFailure
  dsimp only
  split
  · split
    · simp [reportAbuse]
    · rfl
  · rfl

theorem recordRequest_banned (s : AbuseState) (now : Nat) (ip : String)
    (d : Option String) : (recordRequest s now ip d).bannedIPs = s.bannedIPs := by
  unfold recordRequest
  cases d <;> rfl

theorem prune_three_count (f : List Nat) (t1 t2 t3 : Nat)
    (hw1 : t3 - t1 < windowMs) (hw2 : t3 - t2 < windowMs) :
    (pruneWindow t3 (((f ++ [t1]) ++ [t2]) ++ [t3])).length ≥ maxBlacklistAttempts := by
  unfold pruneWindow maxBlacklistAttempts
  simp only [List.filter_append, List.length_append]
  have e1 : List.filter (fun t => decide (t3 - t < windowMs)) [t1] = [t1] := by
    simp [hw1]
  have e2 : List.filter (fun t => decide (t3 - t < windowMs)) [t2] = [t2] := by
    simp [hw2]
  have e3 : List.filter (fun t => decide (t3 - t < windowMs)) [t3] = [t3] := by
    simp [Nat.sub_self]
    decide
  rw [e1, e2, e3]
  simp only [List.length_singleton]
  omega

theorem recordFailure_bans (s : AbuseState) (now : Nat) (ip reason : String)
    (hr : jsIncludes reason "blacklist" = true)
    (hcnt : (pruneWindow now
        (((mapLookup s.ipTracker (ipKey ip)).getD ⟨[], []⟩).failures ++ [now])).length ≥
      maxBlacklistAttempts) :
    setHas (recordFailure s now ip reason).bannedIPs ip = true ∧
    (recordFailure s now ip reason).reports.getLast? =
      some ⟨ip, "Multiple blacklist bypass attempts", "HIGH"⟩ := by
  unfold recordFailure
  dsimp only
  rw [hr]
  simp only [Bool.true_or, if_true]
  rw [if_pos hcnt]
  constructor
  · simp only [reportAbuse]
    exact setHas_setAdd_self _ _
  · simp only [reportAbuse]
    rw [capReports_getLast]
    have hsev : calculateSeverity "Multiple blacklist bypass attempts" = "HIGH" := by decide
    rw [hsev]

theorem applyAbuseOp_preserves_ban (s : AbuseState) (op : AbuseOp) (ip : String)
    (hop : op ≠ AbuseOp.unban ip) (h : setHas s.bannedIPs ip = true) :
    setHas (applyAbuseOp s op).bannedIPs ip = true := by
  cases op with
  | checkRL now ip' d =>
    show setHas ((checkRateLimit s now ip' d).1).bannedIPs ip = true
    rcases checkRateLimit_banned_cases s now ip' d with he | he
    · rw [he]; exact h
    · rw [he]; exact setHas_setAdd_of _ _ _ h
  | recordReq now ip' d =>
    show setHas (recordRequest s now ip' d).bannedIPs ip = true
    rw [recordRequest_banned]
    exact h
  | recordFail now ip' reason =>
    show setHas (recordFailure s now ip' reason).bannedIPs ip = true
    unfold recordFailure
    dsimp only
    split
    · split
      · simp only [reportAbuse]
        exact setHas_setAdd_of _ _ _ h
      · exact h
    · exact h
  | flagSusp ip' reason =>
    show setHas (flagSuspiciousIP s ip' reason).bannedIPs ip = true
    simp only [flagSuspiciousIP, reportAbuse]
    exact h
  | report ip' reason =>
    show setHas (reportAbuse s ip' reason).bannedIPs ip = true
    simp only [reportAbuse]
    exact h
  | clean now =>
    exact h
  | ban ip' reason =>
    show setHas (banIP s ip' reason).bannedIPs ip = true
    simp only [banIP, reportAbuse]
    exact setHas_setAdd_of _ _ _ h
  | unban ip' =>
    show setHas (unbanIP s ip').bannedIPs ip = true
    have hne : ip ≠ ip' := by
      intro hcontra
      exact hop (by rw [hcontra])
    exact setHas_setDel_of _ _ _ hne h

theorem foldl_preserves_ban (ops : List AbuseOp) (s : AbuseState) (ip : String)
    (hops : ∀ op ∈ ops, op ≠ AbuseOp.unban ip)
    (h : setHas s.bannedIPs ip = true) :
    setHas ((ops.foldl applyAbuseOp s)).bannedIPs ip = true := by
  induction ops generalizing s with
  | nil => exact h
  | cons op ops ih =>
    rw [List.foldl_cons]
    exact ih (applyAbuseOp s op) (fun o ho => hops o (List.mem_cons_of_mem op ho))
      (applyAbuseOp_preserves_ban s op ip (hops op (List.mem_cons_self op ops)) h)

theorem banned_checkIPStatus (s : AbuseState) (ip : String)
    (h : setHas s.bannedIPs ip = true) : checkIPStatus s ip = IPStatus.banned := by
  unfold checkIPStatus
  rw [if_pos h]

theorem banned_testScrape_denies (s : AbuseState) (now : Nat) (ip : String)
    (ug uo : Bool) (host path : String) (domains : List String)
    (fetch : RobotsFetch) (outcome : ExtractOutcome)
    (h : setHas s.bannedIPs ip = true) :
    testScrapeHandler s now ip ug uo host path domains fetch outcome =
      (s, ⟨403, false⟩) := by
  unfold testScrapeHandler
  rw [if_pos (banned_checkIPStatus s ip h)]

/-! ## Claim C6 — blacklist-failure ban escalation -/

/-- C6: a caller recording three failures whose reason contains "blacklist"
within one hour transitions to banned (independently of the 10-failure cap,
which plays no part in the hypotheses) and an abuse incident with reason
"Multiple blacklist bypass attempts" is filed; from then on the ban
persists under every abuse-protection operation except an administrative
`unbanIP` for that caller, and while banned every `/test-scrape` admission
is denied immediately with a 403 and a completely unchanged state — before
any window arithmetic. -/
theorem c6_blacklist_ban_escalation (s : AbuseState) (ip : String)
    (t1 t2 t3 : Nat) (r1 r2 r3 : String)
    (_hr1 : jsIncludes r1 "blacklist" = true)
    (_hr2 : jsIncludes r2 "blacklist" = true)
    (hr3 : jsIncludes r3 "blacklist" = true)
    (hw1 : t3 - t1 < windowMs) (hw2 : t3 - t2 < windowMs) :
    setHas (recordFailure (recordFailure (recordFailure s t1 ip r1) t2 ip r2)
        t3 ip r3).bannedIPs ip = true ∧
    (recordFailure (recordFailure (recordFailure s t1 ip r1) t2 ip r2)
        t3 ip r3).reports.getLast? =
      some ⟨ip, "Multiple blacklist bypass attempts", "HIGH"⟩ ∧
    (∀ ops : List AbuseOp, (∀ op ∈ ops, op ≠ AbuseOp.unban ip) →
      setHas ((ops.foldl applyAbuseOp
          (recordFailure (recordFailure (recordFailure s t1 ip r1) t2 ip r2)
            t3 ip r3))).bannedIPs ip = true) ∧
    (∀ (s' : AbuseState), setHas s'.bannedIPs ip = true →
      checkIPStatus s' ip = IPStatus.banned ∧
      ∀ (now : Nat) (ug uo : Bool) (host path : String) (domains : List String)
        (fetch : RobotsFetch) (outcome : ExtractOutcome),
        testScrapeHandler s' now ip ug uo host path domains fetch outcome =
          (s', ⟨403, false⟩)) := by
  have l1 : mapLookup (recordFailure s t1 ip r1).ipTracker (ipKey ip) =
      some ⟨((mapLookup s.ipTracker (ipKey ip)).getD ⟨[], []⟩).requests,
            ((mapLookup s.ipTracker (ipKey ip)).getD ⟨[], []⟩).failures ++ [t1]⟩ := by
    rw [recordFailure_ipTracker]
    exact mapLookup_mapSet_self _ _ _
  have l2 : mapLookup (recordFailure (recordFailure s t1 ip r1) t2 ip r2).ipTracker
        (ipKey ip) =
      some ⟨((mapLookup s.ipTracker (ipKey ip)).getD ⟨[], []⟩).requests,
            (((mapLookup s.ipTracker (ipKey ip)).getD ⟨[], []⟩).failures ++ [t1]) ++ [t2]⟩ := by
    rw [recordFailure_ipTracker, l1]
    simp only [Option.getD_some]
    exact mapLookup_mapSet_self _ _ _
  have hcnt : (pruneWindow t3
      (((mapLookup (recordFailure (recordFailure s t1 ip r1) t2 ip r2).ipTracker
          (ipKey ip)).getD ⟨[], []⟩).failures ++ [t3])).length ≥ maxBlacklistAttempts := by
    rw [l2]
    simp only [Option.getD_some]
    exact prune_three_count _ t1 t2 t3 hw1 hw2
  obtain ⟨hban, hrep⟩ := recordFailure_bans _ t3 ip r3 hr3 hcnt
  refine ⟨hban, hrep, ?_, ?_⟩
  · intro ops hops
    exact foldl_preserves_ban ops _ ip hops hban
  · intro s' h'
    exact ⟨banned_checkIPStatus s' ip h',
      fun now ug uo host path domains fetch outcome =>
        banned_testScrape_denies s' now ip ug uo host path domains fetch outcome h'⟩

/-- Witness for C6: three "blacklist" failures at times 0, 1, 2 ban the
caller, and a banned caller is reported banned by `checkIPStatus`. -/
theorem c6_blacklist_ban_escalation_witness :
    setHas (recordFailure (recordFailure (recordFailure AbuseState.init
        0 "9.9.9.9" "blacklist") 1 "9.9.9.9" "blacklist")
        2 "9.9.9.9" "blacklist").bannedIPs "9.9.9.9" = true ∧
    checkIPStatus ⟨[], [], [], ["9.9.9.9"], []⟩ "9.9.9.9" = IPStatus.banned := by
  have h := c6_blacklist_ban_escalation AbuseState.init "9.9.9.9" 0 1 2
    "blacklist" "blacklist" "blacklist" (by decide) (by decide) (by decide)
    (by decide) (by decide)
  exact ⟨h.1, (h.2.2.2 ⟨[], [], [], ["9.9.9.9"], []⟩ (by decide)).1⟩
